import Mathlib

/-!
# Wireless sensor network coordinator: registry and radio ingestion

A shallow embedding of `SeniorProjCoordinator/CoordinatorTask.c` (the sensor-node
registry) and `SeniorProjCoordinator/CoordinatorRFTask.c` (the radio ingestion loop),
followed by theorems about them.

Conventions of the embedding
* `uint8_t`/`uint16_t` values are `Nat`, `int8_t` values are `Int`; the only
  narrowing conversion of the sources, `(int8_t)rxPacket->rssi`, is written out.
* Global variables of a C file become the fields of a state record; a C function
  becomes a function from state to state.
* Raw buffers (`payload`, `union CoordinatorPacket`) are maps from byte offset to byte.
* The array `knownSensorNodes[COORDINATOR_MAX_NODES]` is a map from slot index to
  node; the array proper is the slots `0 .. COORDINATOR_MAX_NODES - 1`, larger
  indices stand for the memory behind the array.
* The pointer `lastAddedSensorNode` is the index of the slot it points to.
* A `for` loop with `break` is a recursion on the number of iterations left.
* `System_abort` ends a run: functions that can reach it return `Except State State`,
  where `Except.error s` is the state in which the program was aborted.
* Calls into the radio link adapter, the notification callback and the LED driver are
  recorded, oldest first, in a `trace` field that the C program does not have.
-/

/-! ## RadioProtocol.h and EasyLink.h -/

/-- A raw byte buffer: the byte stored at each offset. -/
abbrev Bytes := Nat → Nat

/-- The C library function `memcpy(dst, src, n)` on byte buffers. -/
def memcpy (dst src : Bytes) (n : Nat) : Bytes :=
  fun i => if i < n then src i else dst i

/-- The assignment `buf[i] = v` on a byte buffer. -/
def setByte (buf : Bytes) (i v : Nat) : Bytes :=
  fun j => if j = i then v else buf j

/-- The bytes of a list, followed by zeros. -/
def bytesOf (l : List Nat) : Bytes :=
  fun i => l.getD i 0

/-- The constants and struct layout that `RadioProtocol.h` declares. That header is
not among the sources, so the embedding takes them as a parameter: the coordinator
address, the three packet type numbers, `sizeof` of the three packet structs and the
offset of `button` in `struct DualModeSensorPacket`. -/
structure RadioProtocol where
  RADIO_COORDINATOR_ADDRESS : Nat
  RADIO_PACKET_TYPE_ACK_PACKET : Nat
  RADIO_PACKET_TYPE_ADC_SENSOR_PACKET : Nat
  RADIO_PACKET_TYPE_DM_SENSOR_PACKET : Nat
  sizeofAckPacket : Nat
  sizeofAdcSensorPacket : Nat
  sizeofDualModeSensorPacket : Nat
  offsetofButton : Nat
  deriving DecidableEq

namespace RadioProtocol

/-- Modelled from the spec: the field `header.sourceAddress` of `union CoordinatorPacket`
(RadioProtocol.h is not among the sources); the spec's wire layout puts it in byte 0. -/
def sourceAddress (packet : Bytes) : Nat := packet 0

/-- Modelled from the spec: the field `header.packetType` of `union CoordinatorPacket`
(RadioProtocol.h is not among the sources); the spec's wire layout puts it in byte 1. -/
def packetType (packet : Bytes) : Nat := packet 1

/-- Modelled from the spec: the 2-byte field `adcValue`, which follows the header in both
`struct AdcSensorPacket` and `struct DualModeSensorPacket` (RadioProtocol.h is not among
the sources); the CC2650 stores it low byte first. -/
def adcValue (packet : Bytes) : Nat := packet 2 + 256 * packet 3

/-- The field `dmSensorPacket.button`, one byte at the offset the layout gives. -/
def button (P : RadioProtocol) (packet : Bytes) : Nat := packet P.offsetofButton

/-- The layouts the sources make sense for: the three packet types have different
numbers, the Ack struct holds the 2-byte header, both sensor structs hold the header
and `adcValue`, and `button` lies behind them inside `struct DualModeSensorPacket`. -/
def WellFormed (P : RadioProtocol) : Prop :=
  P.RADIO_PACKET_TYPE_ADC_SENSOR_PACKET ≠ P.RADIO_PACKET_TYPE_DM_SENSOR_PACKET ∧
    P.RADIO_PACKET_TYPE_ACK_PACKET ≠ P.RADIO_PACKET_TYPE_ADC_SENSOR_PACKET ∧
    P.RADIO_PACKET_TYPE_ACK_PACKET ≠ P.RADIO_PACKET_TYPE_DM_SENSOR_PACKET ∧
    2 ≤ P.sizeofAckPacket ∧
    4 ≤ P.sizeofAdcSensorPacket ∧
    4 ≤ P.offsetofButton ∧
    P.offsetofButton < P.sizeofDualModeSensorPacket

instance (P : RadioProtocol) : Decidable P.WellFormed := by
  unfold WellFormed; infer_instance

/-- Modelled from the spec: an instance of the protocol parameters (RadioProtocol.h is
not among the sources). The coordinator address `0x00` and the type numbers
0 = AdcSensor, 1 = DualModeSensor, 2 = Ack are the spec's; the Ack is the 2-byte header
and the AdcSensor packet the header plus the 2-byte `adcValue`. The spec lists `button`
after `adcValue` and uses payload offsets up to 14 for DualModeSensor frames without
fixing the struct, for which this instance takes offset 4 and size 16. -/
def spec : RadioProtocol :=
  { RADIO_COORDINATOR_ADDRESS := 0
    RADIO_PACKET_TYPE_ACK_PACKET := 2
    RADIO_PACKET_TYPE_ADC_SENSOR_PACKET := 0
    RADIO_PACKET_TYPE_DM_SENSOR_PACKET := 1
    sizeofAckPacket := 2
    sizeofAdcSensorPacket := 4
    sizeofDualModeSensorPacket := 16
    offsetofButton := 4 }

end RadioProtocol

/-- The result type `EasyLink_Status` of the radio link adapter. The sources only
compare it with `EasyLink_Status_Success`; every other enumerator is an `Error`. -/
inductive EasyLink_Status where
  | Success
  | Error (code : Nat)
  deriving DecidableEq

/-- The fields of `EasyLink_RxPacket` that the sources read. -/
structure EasyLink_RxPacket where
  payload : Bytes
  rssi : Int

/-- The fields of `EasyLink_TxPacket` that the sources write: `dstAddr[0]`, `len` and
`payload`. -/
structure EasyLink_TxPacket where
  dstAddr0 : Nat
  len : Nat
  payload : Bytes

/-- The conversion `(int8_t)x`. -/
def toInt8 (x : Int) : Int := (x + 128) % 256 - 128

/-! ## CoordinatorTask.c -/

namespace CoordinatorTask

/-- The value of `#define COORDINATOR_MAX_NODES 7`. -/
def COORDINATOR_MAX_NODES : Nat := 7

/-- The value of `#define COORDINATOR_EVENT_NEW_ADC_SENSOR_VALUE (uint32_t)(1 << 0)`. -/
def COORDINATOR_EVENT_NEW_ADC_SENSOR_VALUE : Nat := 1 <<< 0

/-- The C type `struct AdcSensorNode`. -/
structure AdcSensorNode where
  address : Nat
  latestAdcValue : Nat
  button : Nat
  latestRssi : Int
  deriving DecidableEq

/-- A zero-initialised `struct AdcSensorNode` (static storage). -/
def AdcSensorNode.zero : AdcSensorNode :=
  { address := 0, latestAdcValue := 0, button := 0, latestRssi := 0 }

/-- The file-scope variables of `CoordinatorTask.c` that the registry logic uses:
`latestActiveAdcSensorNode`, `knownSensorNodes`, `lastAddedSensorNode` (as a slot
index) and the pending bits of `coordinatorEvent`. -/
structure State where
  latestActiveAdcSensorNode : AdcSensorNode
  knownSensorNodes : Nat → AdcSensorNode
  lastAddedSensorNode : Nat
  coordinatorEvent : Nat

/-- The state at program start: static storage is zero, and
`lastAddedSensorNode = knownSensorNodes` points to slot 0. -/
def State.init : State :=
  { latestActiveAdcSensorNode := AdcSensorNode.zero
    knownSensorNodes := fun _ => AdcSensorNode.zero
    lastAddedSensorNode := 0
    coordinatorEvent := 0 }

/-- The assignment `a[i] = v` on an array seen as a map from index to element. -/
def setSlot (a : Nat → AdcSensorNode) (i : Nat) (v : AdcSensorNode) : Nat → AdcSensorNode :=
  fun j => if j = i then v else a j

/-- The loop of `isKnownNodeAddress`, at index `i` with `k` iterations left:
returns the final value of `found`. -/
def isKnownNodeAddress.loop (knownSensorNodes : Nat → AdcSensorNode) (address : Nat) :
    Nat → Nat → Nat
  | _, 0 => 0
  | i, k + 1 =>
    if (knownSensorNodes i).address = address then 1
    else isKnownNodeAddress.loop knownSensorNodes address (i + 1) k

/-- The C function `isKnownNodeAddress`: `for (i = 0; i < COORDINATOR_MAX_NODES; i++)`. -/
def isKnownNodeAddress (s : State) (address : Nat) : Nat :=
  isKnownNodeAddress.loop s.knownSensorNodes address 0 COORDINATOR_MAX_NODES

/-- The loop of `updateNode`, at index `i` with `k` iterations left. -/
def updateNode.loop (node : AdcSensorNode) :
    Nat → Nat → (Nat → AdcSensorNode) → (Nat → AdcSensorNode)
  | _, 0, knownSensorNodes => knownSensorNodes
  | i, k + 1, knownSensorNodes =>
    if (knownSensorNodes i).address = node.address then
      setSlot knownSensorNodes i
        { knownSensorNodes i with
          latestAdcValue := node.latestAdcValue
          latestRssi := node.latestRssi
          button := node.button }
    else updateNode.loop node (i + 1) k knownSensorNodes

/-- The C function `updateNode`. -/
def updateNode (s : State) (node : AdcSensorNode) : State :=
  { s with
    knownSensorNodes := updateNode.loop node 0 COORDINATOR_MAX_NODES s.knownSensorNodes }

/-- The C function `addNewNode`: store through the cursor, increment it, and wrap
when it points behind `knownSensorNodes[COORDINATOR_MAX_NODES-1]`. -/
def addNewNode (s : State) (node : AdcSensorNode) : State :=
  let knownSensorNodes := setSlot s.knownSensorNodes s.lastAddedSensorNode node
  let lastAddedSensorNode := s.lastAddedSensorNode + 1
  { s with
    knownSensorNodes := knownSensorNodes
    lastAddedSensorNode :=
      if lastAddedSensorNode > COORDINATOR_MAX_NODES - 1 then 0 else lastAddedSensorNode }

/-- The body of `if (events & COORDINATOR_EVENT_NEW_ADC_SENSOR_VALUE)` in
`coordinatorTaskFunction`: update a known node, else add it. -/
def registryStep (s : State) : State :=
  if isKnownNodeAddress s s.latestActiveAdcSensorNode.address ≠ 0 then
    updateNode s s.latestActiveAdcSensorNode
  else
    addNewNode s s.latestActiveAdcSensorNode

/-- One iteration of the `while(1)` loop of `coordinatorTaskFunction`: `Event_pend`
returns the pending bits and clears them (with nothing pending the task stays
blocked and the state is unchanged). -/
def coordinatorTaskIteration (s : State) : State :=
  let events := s.coordinatorEvent
  if events = 0 then s
  else
    let s := { s with coordinatorEvent := 0 }
    if events &&& COORDINATOR_EVENT_NEW_ADC_SENSOR_VALUE ≠ 0 then registryStep s else s

/-- What both branches of `packetReceivedCallback` do with the extracted values:
store them in `latestActiveAdcSensorNode` and post the new-value event. -/
def postNewValue (s : State) (node : AdcSensorNode) : State :=
  { s with
    latestActiveAdcSensorNode := node
    coordinatorEvent := s.coordinatorEvent ||| COORDINATOR_EVENT_NEW_ADC_SENSOR_VALUE }

/-- The C function `packetReceivedCallback` of `CoordinatorTask.c`. -/
def packetReceivedCallback (P : RadioProtocol) (s : State) (packet : Bytes) (rssi : Int) :
    State :=
  if RadioProtocol.packetType packet = P.RADIO_PACKET_TYPE_ADC_SENSOR_PACKET then
    postNewValue s
      { address := RadioProtocol.sourceAddress packet
        latestAdcValue := RadioProtocol.adcValue packet
        button := 0
        latestRssi := rssi }
  else if RadioProtocol.packetType packet = P.RADIO_PACKET_TYPE_DM_SENSOR_PACKET then
    postNewValue s
      { address := RadioProtocol.sourceAddress packet
        latestAdcValue := RadioProtocol.adcValue packet
        button := RadioProtocol.button P packet
        latestRssi := rssi }
  else s

/-- A notification carrying `node`, followed by the main-loop iteration it wakes. -/
def processNotification (s : State) (node : AdcSensorNode) : State :=
  coordinatorTaskIteration (postNewValue s node)

/-- Notifications processed one after the other. -/
def processNotifications (s : State) : List AdcSensorNode → State
  | [] => s
  | node :: rest => processNotifications (processNotification s node) rest

/-- The index of the lowest slot among `i, i+1, ..., i+k-1` whose address is `address`. -/
def findSlot.loop (knownSensorNodes : Nat → AdcSensorNode) (address : Nat) :
    Nat → Nat → Option Nat
  | _, 0 => none
  | i, k + 1 =>
    if (knownSensorNodes i).address = address then some i
    else findSlot.loop knownSensorNodes address (i + 1) k

/-- The slot a lookup of `address` finds: the lowest-index slot of the array whose
address equals `address`. -/
def findSlot (s : State) (address : Nat) : Option Nat :=
  findSlot.loop s.knownSensorNodes address 0 COORDINATOR_MAX_NODES

/-- The 7 slots of the array, in order. -/
def slots (s : State) : List AdcSensorNode :=
  (List.range COORDINATOR_MAX_NODES).map s.knownSensorNodes

/-- A notification value with the given address and adcValue, button 0 and rssi -60. -/
def nodeOf (address adcValue : Nat) : AdcSensorNode :=
  { address := address, latestAdcValue := adcValue, button := 0, latestRssi := -60 }

/-- The registry states the program can reach: from the initial state, by notifications
and iterations of the main loop. -/
inductive Reachable : State → Prop
  | init : Reachable State.init
  | post (s : State) (node : AdcSensorNode) : Reachable s → Reachable (postNewValue s node)
  | iteration (s : State) : Reachable s → Reachable (coordinatorTaskIteration s)

/-- The registry invariant: the cursor is a slot of the array and nothing was ever
stored behind the array. -/
def RegistryInv (s : State) : Prop :=
  s.lastAddedSensorNode < COORDINATOR_MAX_NODES ∧
    ∀ i, COORDINATOR_MAX_NODES ≤ i → s.knownSensorNodes i = AdcSensorNode.zero

/-- Eight notifications with the addresses 1, 2, 0, 3, 4, 5, 6 and then 7. -/
def evictionTrial : List AdcSensorNode :=
  [nodeOf 1 11, nodeOf 2 12, nodeOf 0 13, nodeOf 3 14, nodeOf 4 15, nodeOf 5 16, nodeOf 6 17,
    nodeOf 7 18]

/-- The runs of the registry main-loop step from the initial state, each with the list
of the slots that `addNewNode` has written so far (the latest first): a notification for
a known address is an update and writes no slot, a notification for an unknown address
is an insertion into the slot the cursor points to. -/
inductive RegistryRun : State → List Nat → Prop
  | init : RegistryRun State.init []
  | update (s : State) (inserted : List Nat) (node : AdcSensorNode) :
      RegistryRun s inserted → isKnownNodeAddress s node.address ≠ 0 →
      RegistryRun (processNotification s node) inserted
  | add (s : State) (inserted : List Nat) (node : AdcSensorNode) :
      RegistryRun s inserted → isKnownNodeAddress s node.address = 0 →
      RegistryRun (processNotification s node) (s.lastAddedSensorNode :: inserted)

/-- The invariant behind the uniqueness of addresses, for a registry state and the list
of the slots inserted so far: while a never-inserted slot is left, the inserted slots
are the ones below the cursor and hold non-zero addresses; a never-inserted slot holds
address 0 and, when it lies above the cursor, is still entirely zero; and the inserted
slots hold pairwise different addresses. -/
structure UniqueInv (s : State) (inserted : List Nat) : Prop where
  cursor : s.lastAddedSensorNode < COORDINATOR_MAX_NODES
  bound : ∀ j, j ∈ inserted → j < COORDINATOR_MAX_NODES
  below : (∃ i, i < COORDINATOR_MAX_NODES ∧ i ∉ inserted) →
    ∀ j, j ∈ inserted ↔ j < s.lastAddedSensorNode
  fresh : ∀ i, i < COORDINATOR_MAX_NODES → i ∉ inserted →
    (s.knownSensorNodes i).address = 0 ∧
      (s.lastAddedSensorNode < i → s.knownSensorNodes i = AdcSensorNode.zero)
  nonzero : (∃ i, i < COORDINATOR_MAX_NODES ∧ i ∉ inserted) →
    ∀ j, j ∈ inserted → (s.knownSensorNodes j).address ≠ 0
  distinct : ∀ i j, i ∈ inserted → j ∈ inserted → i ≠ j →
    (s.knownSensorNodes i).address ≠ (s.knownSensorNodes j).address

end CoordinatorTask

/-! ## CoordinatorRFTask.c -/

namespace CoordinatorRFTask

/-- The value of `#define RADIO_EVENT_VALID_PACKET_RECEIVED (uint32_t)(1 << 0)`. -/
def RADIO_EVENT_VALID_PACKET_RECEIVED : Nat := 1 <<< 0

/-- The value of `#define RADIO_EVENT_INVALID_PACKET_RECEIVED (uint32_t)(1 << 1)`. -/
def RADIO_EVENT_INVALID_PACKET_RECEIVED : Nat := 1 <<< 1

/-- A call that leaves `CoordinatorRFTask.c`: into the radio link adapter, into the
registered notification callback, or into the pin driver of the activity LED. -/
inductive Effect where
  | init
  | enableRxAddrFilter (address : Nat)
  | receiveAsync
  | transmit (txPacket : EasyLink_TxPacket)
  | packetReceived (packet : Bytes) (rssi : Int)
  | setOutputValue (value : Nat)

/-- The type `CoordinatorRadio_PacketReceivedCallback`: a callback gets the packet and
the rssi, and acts on the state of the registry task. -/
abbrev CoordinatorRadio_PacketReceivedCallback :=
  Bytes → Int → CoordinatorTask.State → CoordinatorTask.State

/-- The file-scope variables of `CoordinatorRFTask.c` (`ackPacket` and `latestRxPacket`
as raw bytes), the two external sinks `*test.t` and `*test.h`, the output value of the
activity LED, the state of the registry task that a registered callback acts on, and
the trace of calls made so far. -/
structure State where
  packetReceivedCallback : Option CoordinatorRadio_PacketReceivedCallback
  latestRxPacket : Bytes
  txPacket : EasyLink_TxPacket
  ackPacket : Bytes
  coordinatorAddress : Nat
  latestRssi : Int
  radioOperationEvent : Nat
  test_t : Nat
  test_h : Nat
  activityLed : Nat
  coordinator : CoordinatorTask.State
  trace : List Effect

/-- The state at program start: static storage is zero, no callback is registered. -/
def State.init : State :=
  { packetReceivedCallback := none
    latestRxPacket := fun _ => 0
    txPacket := { dstAddr0 := 0, len := 0, payload := fun _ => 0 }
    ackPacket := fun _ => 0
    coordinatorAddress := 0
    latestRssi := 0
    radioOperationEvent := 0
    test_t := 0
    test_h := 0
    activityLed := 0
    coordinator := CoordinatorTask.State.init
    trace := [] }

/-- What the radio link adapter answers to the calls of one stretch of the program:
to `EasyLink_init`, to `EasyLink_transmit`, and to the `EasyLink_receiveAsync` calls of
the prologue, of the valid-packet branch and of the invalid-packet branch. -/
structure Adapter where
  init : EasyLink_Status
  transmit : EasyLink_Status
  receiveAsyncStart : EasyLink_Status
  receiveAsyncValid : EasyLink_Status
  receiveAsyncInvalid : EasyLink_Status
  deriving DecidableEq

/-- An adapter on which every call succeeds. -/
def Adapter.success : Adapter :=
  { init := EasyLink_Status.Success
    transmit := EasyLink_Status.Success
    receiveAsyncStart := EasyLink_Status.Success
    receiveAsyncValid := EasyLink_Status.Success
    receiveAsyncInvalid := EasyLink_Status.Success }

/-- The state in which a run ended, aborted or not. -/
def stateOf : Except State State → State
  | Except.ok s => s
  | Except.error s => s

/-- Whether a run ended in `System_abort`. -/
def aborted : Except State State → Bool
  | Except.ok _ => false
  | Except.error _ => true

/-- The C function `CoordinatorRadioTask_registerPacketReceivedCallback`. -/
def CoordinatorRadioTask_registerPacketReceivedCallback (s : State)
    (callback : CoordinatorRadio_PacketReceivedCallback) : State :=
  { s with packetReceivedCallback := some callback }

/-- The statement `if (EasyLink_receiveAsync(rxDoneCallback, 0) != EasyLink_Status_Success)
System_abort(...)`, with the adapter's answer `status`. -/
def receiveAsyncOrAbort (status : EasyLink_Status) (s : State) : Except State State :=
  let s := { s with trace := s.trace ++ [Effect.receiveAsync] }
  if status ≠ EasyLink_Status.Success then Except.error s else Except.ok s

/-- The C function `sendAck`, with the adapter's answer `status` to `EasyLink_transmit`. -/
def sendAck (P : RadioProtocol) (status : EasyLink_Status) (s : State)
    (latestSourceAddress : Nat) : Except State State :=
  let s := { s with txPacket := { s.txPacket with dstAddr0 := latestSourceAddress } }
  let s := { s with
    txPacket := { s.txPacket with
      payload := memcpy s.txPacket.payload s.ackPacket P.sizeofAckPacket } }
  let s := { s with txPacket := { s.txPacket with len := P.sizeofAckPacket } }
  let s := { s with trace := s.trace ++ [Effect.transmit s.txPacket] }
  if status ≠ EasyLink_Status.Success then Except.error s else Except.ok s

/-- The C function `notifyPacketReceived`: call the callback if one is registered. -/
def notifyPacketReceived (s : State) (latestRxPacket : Bytes) : State :=
  match s.packetReceivedCallback with
  | some callback =>
    { s with
      coordinator := callback latestRxPacket s.latestRssi s.coordinator
      trace := s.trace ++ [Effect.packetReceived latestRxPacket s.latestRssi] }
  | none => s

/-- The C function `rxDoneCallback`. -/
def rxDoneCallback (P : RadioProtocol) (s : State) (rxPacket : EasyLink_RxPacket)
    (status : EasyLink_Status) : State :=
  if status = EasyLink_Status.Success then
    let s := { s with latestRssi := toInt8 rxPacket.rssi }
    let tmpRxPacket := rxPacket.payload
    if RadioProtocol.packetType tmpRxPacket = P.RADIO_PACKET_TYPE_ADC_SENSOR_PACKET then
      let s := { s with
        latestRxPacket := memcpy s.latestRxPacket rxPacket.payload P.sizeofAdcSensorPacket }
      { s with
        radioOperationEvent := s.radioOperationEvent ||| RADIO_EVENT_VALID_PACKET_RECEIVED }
    else if RadioProtocol.packetType tmpRxPacket = P.RADIO_PACKET_TYPE_DM_SENSOR_PACKET then
      let s := { s with
        latestRxPacket :=
          memcpy s.latestRxPacket rxPacket.payload P.sizeofDualModeSensorPacket }
      let s := { s with
        radioOperationEvent := s.radioOperationEvent ||| RADIO_EVENT_VALID_PACKET_RECEIVED }
      let s := if rxPacket.payload 13 ≠ 0 then { s with test_t := rxPacket.payload 13 } else s
      if rxPacket.payload 14 ≠ 0 then { s with test_h := rxPacket.payload 14 } else s
    else
      { s with
        radioOperationEvent := s.radioOperationEvent ||| RADIO_EVENT_INVALID_PACKET_RECEIVED }
  else
    { s with
      radioOperationEvent := s.radioOperationEvent ||| RADIO_EVENT_INVALID_PACKET_RECEIVED }

/-- The prologue of `coordinatorRFTaskFunction`, up to the `while (1)`: initialise the
adapter, set the address filter, fill in the Ack packet and arm the first receive. -/
def coordinatorRFTaskStart (P : RadioProtocol) (adapter : Adapter) (s : State) :
    Except State State :=
  let s := { s with trace := s.trace ++ [Effect.init] }
  if adapter.init ≠ EasyLink_Status.Success then Except.error s
  else
    let s := { s with coordinatorAddress := P.RADIO_COORDINATOR_ADDRESS }
    let s := { s with trace := s.trace ++ [Effect.enableRxAddrFilter s.coordinatorAddress] }
    let s := { s with ackPacket := setByte s.ackPacket 0 s.coordinatorAddress }
    let s := { s with ackPacket := setByte s.ackPacket 1 P.RADIO_PACKET_TYPE_ACK_PACKET }
    receiveAsyncOrAbort adapter.receiveAsyncStart s

/-- The branch `if (events & RADIO_EVENT_VALID_PACKET_RECEIVED)` of the main loop. -/
def validPacketReceived (P : RadioProtocol) (adapter : Adapter) (s : State) :
    Except State State :=
  match sendAck P adapter.transmit s (RadioProtocol.sourceAddress s.latestRxPacket) with
  | Except.error s => Except.error s
  | Except.ok s =>
    let s := notifyPacketReceived s s.latestRxPacket
    match receiveAsyncOrAbort adapter.receiveAsyncValid s with
    | Except.error s => Except.error s
    | Except.ok s =>
      let value := if s.activityLed = 0 then 1 else 0
      Except.ok { s with activityLed := value, trace := s.trace ++ [Effect.setOutputValue value] }

/-- One iteration of the `while (1)` loop of `coordinatorRFTaskFunction`: `Event_pend`
returns the pending bits and clears them (with nothing pending the task stays blocked
and the state is unchanged). -/
def coordinatorRFTaskIteration (P : RadioProtocol) (adapter : Adapter) (s : State) :
    Except State State :=
  let events := s.radioOperationEvent
  if events = 0 then Except.ok s
  else
    let s := { s with radioOperationEvent := 0 }
    match (if events &&& RADIO_EVENT_VALID_PACKET_RECEIVED ≠ 0 then
        validPacketReceived P adapter s
      else Except.ok s) with
    | Except.error s => Except.error s
    | Except.ok s =>
      if events &&& RADIO_EVENT_INVALID_PACKET_RECEIVED ≠ 0 then
        receiveAsyncOrAbort adapter.receiveAsyncInvalid s
      else Except.ok s

/-- The Acks handed to `EasyLink_transmit` in a trace, oldest first. -/
def acks : List Effect → List EasyLink_TxPacket
  | [] => []
  | Effect.transmit txPacket :: rest => txPacket :: acks rest
  | _ :: rest => acks rest

/-- The arguments of the callback invocations in a trace, oldest first. -/
def notifications : List Effect → List (Bytes × Int)
  | [] => []
  | Effect.packetReceived packet rssi :: rest => (packet, rssi) :: notifications rest
  | _ :: rest => notifications rest

/-- The number of `EasyLink_receiveAsync` calls in a trace. -/
def receiveAsyncCalls : List Effect → Nat
  | [] => 0
  | Effect.receiveAsync :: rest => receiveAsyncCalls rest + 1
  | _ :: rest => receiveAsyncCalls rest

/-- The callback that the registry task registers: `packetReceivedCallback` of
`CoordinatorTask.c`. -/
def registryCallback (P : RadioProtocol) : CoordinatorRadio_PacketReceivedCallback :=
  fun packet rssi c => CoordinatorTask.packetReceivedCallback P c packet rssi

/-- The program after start-up: the registry task has registered its callback and the
radio task has run its prologue. -/
def started (P : RadioProtocol) (adapter : Adapter) : Except State State :=
  coordinatorRFTaskStart P adapter
    (CoordinatorRadioTask_registerPacketReceivedCallback State.init (registryCallback P))

/-- A received frame holding an AdcSensor packet: source address, packet type, and the
adcValue low byte first. -/
def adcSensorFrame (P : RadioProtocol) (sourceAddress adcValue : Nat) (rssi : Int) :
    EasyLink_RxPacket :=
  { payload := bytesOf [sourceAddress, P.RADIO_PACKET_TYPE_ADC_SENSOR_PACKET,
      adcValue % 256, adcValue / 256]
    rssi := rssi }

end CoordinatorRFTask

namespace CoordinatorRFTask

/-- A received frame holding only a header of the Ack type, from address `0x05`. -/
def ackFrame (P : RadioProtocol) : EasyLink_RxPacket :=
  { payload := bytesOf [5, P.RADIO_PACKET_TYPE_ACK_PACKET]
    rssi := -60 }

/-- A received frame holding a DualModeSensor packet in the layout of
`RadioProtocol.spec`: address `0x05`, adcValue 300, button 1, and the bytes 72 and 40 at
the payload offsets 13 and 14. -/
def dualModeFrame : EasyLink_RxPacket :=
  { payload := bytesOf [5, 1, 44, 1, 1, 0, 0, 0, 0, 0, 0, 0, 0, 72, 40, 0]
    rssi := -60 }

/-- An adapter on which every call succeeds except `EasyLink_transmit`. -/
def Adapter.transmitFails : Adapter :=
  { Adapter.success with transmit := EasyLink_Status.Error 5 }

/-- The radio main-loop iteration woken by an AdcSensor frame from address `0x05` with
adcValue 300 and rssi -60, after a successful start-up, when the Ack transmission fails. -/
def ackFailureRun : Except State State :=
  coordinatorRFTaskIteration RadioProtocol.spec Adapter.transmitFails
    (rxDoneCallback RadioProtocol.spec (stateOf (started RadioProtocol.spec Adapter.success))
      (adcSensorFrame RadioProtocol.spec 5 300 (-60)) EasyLink_Status.Success)

/-- The end-to-end run: start-up, an AdcSensor frame from `sourceAddress` completing with
success, the radio main-loop iteration it wakes, and the registry main-loop iteration
that the notification wakes. An abort ends the run where it happens. -/
def endToEnd (P : RadioProtocol) (adapter : Adapter) (sourceAddress adcValue : Nat)
    (rssi : Int) : Except State State :=
  match started P adapter with
  | Except.error s => Except.error s
  | Except.ok s =>
    match coordinatorRFTaskIteration P adapter
      (rxDoneCallback P s (adcSensorFrame P sourceAddress adcValue rssi)
        EasyLink_Status.Success) with
    | Except.error s => Except.error s
    | Except.ok s =>
      Except.ok { s with coordinator := CoordinatorTask.coordinatorTaskIteration s.coordinator }

end CoordinatorRFTask

/-! ## Lemmas about the registry -/

namespace CoordinatorTask

theorem isKnownNodeAddress_loop_eq_findSlot (ks : Nat → AdcSensorNode) (a : Nat) (k i : Nat) :
    isKnownNodeAddress.loop ks a i k = if (findSlot.loop ks a i k).isSome then 1 else 0 := by
  induction k generalizing i with
  | zero => simp [isKnownNodeAddress.loop, findSlot.loop]
  | succ k ih =>
    by_cases h : (ks i).address = a
    · simp [isKnownNodeAddress.loop, findSlot.loop, h]
    · simp [isKnownNodeAddress.loop, findSlot.loop, h, ih]

theorem findSlot_loop_some (ks : Nat → AdcSensorNode) (a : Nat) (k i j : Nat)
    (h : findSlot.loop ks a i k = some j) :
    i ≤ j ∧ j < i + k ∧ (ks j).address = a ∧ ∀ m, i ≤ m → m < j → (ks m).address ≠ a := by
  induction k generalizing i with
  | zero => simp [findSlot.loop] at h
  | succ k ih =>
    by_cases hi : (ks i).address = a
    · simp [findSlot.loop, hi] at h
      subst h
      exact ⟨le_refl _, by omega, hi, fun m h1 h2 => by omega⟩
    · simp [findSlot.loop, hi] at h
      obtain ⟨h1, h2, h3, h4⟩ := ih (i + 1) h
      refine ⟨by omega, by omega, h3, fun m hm1 hm2 => ?_⟩
      by_cases hmi : m = i
      · subst hmi; exact hi
      · exact h4 m (by omega) hm2

theorem findSlot_loop_none (ks : Nat → AdcSensorNode) (a : Nat) (k i : Nat)
    (h : findSlot.loop ks a i k = none) :
    ∀ m, i ≤ m → m < i + k → (ks m).address ≠ a := by
  induction k generalizing i with
  | zero => intro m h1 h2; omega
  | succ k ih =>
    by_cases hi : (ks i).address = a
    · simp [findSlot.loop, hi] at h
    · simp [findSlot.loop, hi] at h
      intro m h1 h2
      by_cases hmi : m = i
      · subst hmi; exact hi
      · exact ih (i + 1) h m (by omega) (by omega)

theorem findSlot_loop_of_first (ks : Nat → AdcSensorNode) (a : Nat) (k i j : Nat)
    (h1 : i ≤ j) (h2 : j < i + k) (h3 : (ks j).address = a)
    (h4 : ∀ m, i ≤ m → m < j → (ks m).address ≠ a) :
    findSlot.loop ks a i k = some j := by
  induction k generalizing i with
  | zero => omega
  | succ k ih =>
    by_cases hij : i = j
    · subst hij; simp [findSlot.loop, h3]
    · have hi : (ks i).address ≠ a := h4 i (le_refl _) (by omega)
      simp only [findSlot.loop, hi, if_false]
      exact ih (i + 1) (by omega) (by omega) (fun m hm1 hm2 => h4 m (by omega) hm2)

theorem findSlot_loop_congr (ks ks2 : Nat → AdcSensorNode) (a : Nat) (k i : Nat)
    (h : ∀ m, i ≤ m → m < i + k → (ks2 m).address = (ks m).address) :
    findSlot.loop ks2 a i k = findSlot.loop ks a i k := by
  induction k generalizing i with
  | zero => simp [findSlot.loop]
  | succ k ih =>
    have hi := h i (le_refl _) (by omega)
    simp only [findSlot.loop, hi]
    rw [ih (i + 1) (fun m h1 h2 => h m (by omega) (by omega))]

theorem updateNode_loop_eq_findSlot (node : AdcSensorNode) (ks : Nat → AdcSensorNode) (k i : Nat) :
    updateNode.loop node i k ks =
      match findSlot.loop ks node.address i k with
      | some j =>
        setSlot ks j
          { ks j with
            latestAdcValue := node.latestAdcValue
            latestRssi := node.latestRssi
            button := node.button }
      | none => ks := by
  induction k generalizing i with
  | zero => simp [updateNode.loop, findSlot.loop]
  | succ k ih =>
    by_cases h : (ks i).address = node.address
    · simp [updateNode.loop, findSlot.loop, h]
    · simp [updateNode.loop, findSlot.loop, h, ih]

theorem isKnownNodeAddress_eq_findSlot (s : State) (a : Nat) :
    isKnownNodeAddress s a = if (findSlot s a).isSome then 1 else 0 :=
  isKnownNodeAddress_loop_eq_findSlot s.knownSensorNodes a COORDINATOR_MAX_NODES 0

theorem newValue_bit_posted (e : Nat) :
    e ||| COORDINATOR_EVENT_NEW_ADC_SENSOR_VALUE ≠ 0 ∧
      (e ||| COORDINATOR_EVENT_NEW_ADC_SENSOR_VALUE) &&& COORDINATOR_EVENT_NEW_ADC_SENSOR_VALUE ≠ 0 := by
  have h1 : COORDINATOR_EVENT_NEW_ADC_SENSOR_VALUE = 1 := rfl
  rw [h1]
  have h2 : (e ||| 1) &&& 1 = 1 := by simp
  refine ⟨fun h => ?_, by omega⟩
  rw [h] at h2
  simp at h2

/-- A notification followed by the iteration it wakes runs the registry step on the
notified node, with no event left pending. -/
theorem processNotification_eq (s : State) (node : AdcSensorNode) :
    processNotification s node =
      registryStep { s with latestActiveAdcSensorNode := node, coordinatorEvent := 0 } := by
  obtain ⟨h1, h2⟩ := newValue_bit_posted s.coordinatorEvent
  simp [processNotification, coordinatorTaskIteration, postNewValue, h1, h2]

theorem isKnownNodeAddress_iff (s : State) (a : Nat) :
    (isKnownNodeAddress s a = 1 ↔
        ∃ i, i < COORDINATOR_MAX_NODES ∧ (s.knownSensorNodes i).address = a) ∧
      (isKnownNodeAddress s a = 0 ↔
        ∀ i, i < COORDINATOR_MAX_NODES → (s.knownSensorNodes i).address ≠ a) := by
  rw [isKnownNodeAddress_eq_findSlot]
  cases h : findSlot s a with
  | none =>
    have hn := findSlot_loop_none _ _ _ _ h
    simp only [Option.isSome_none, Bool.false_eq_true, if_false, zero_ne_one, false_iff, true_iff]
    refine ⟨fun ⟨i, hi, hia⟩ => hn i (Nat.zero_le _) (by omega) hia,
      fun i hi => hn i (Nat.zero_le _) (by omega)⟩
  | some j =>
    obtain ⟨_, h2, h3, _⟩ := findSlot_loop_some _ _ _ _ _ h
    simp only [Option.isSome_some, if_true, true_iff, one_ne_zero, false_iff]
    refine ⟨⟨j, by omega, h3⟩, fun hall => hall j (by omega) h3⟩


theorem registryStep_known (t : State) (j : Nat)
    (h : findSlot t t.latestActiveAdcSensorNode.address = some j) :
    registryStep t =
      { t with knownSensorNodes := setSlot t.knownSensorNodes j t.latestActiveAdcSensorNode } := by
  have hj := (findSlot_loop_some _ _ _ _ _ h).2.2.1
  have hk : isKnownNodeAddress t t.latestActiveAdcSensorNode.address ≠ 0 := by
    rw [isKnownNodeAddress_eq_findSlot, h]; simp
  have hf : findSlot.loop t.knownSensorNodes t.latestActiveAdcSensorNode.address 0
      COORDINATOR_MAX_NODES = some j := h
  have hnode : ({ t.knownSensorNodes j with
      latestAdcValue := t.latestActiveAdcSensorNode.latestAdcValue
      latestRssi := t.latestActiveAdcSensorNode.latestRssi
      button := t.latestActiveAdcSensorNode.button } : AdcSensorNode) =
      t.latestActiveAdcSensorNode := by
    simp only [hj]
  simp only [registryStep, hk, ne_eq, not_false_eq_true, if_true, updateNode,
    updateNode_loop_eq_findSlot, hf, hnode]

theorem registryStep_unknown (t : State)
    (h : findSlot t t.latestActiveAdcSensorNode.address = none) :
    registryStep t = addNewNode t t.latestActiveAdcSensorNode := by
  have hk : isKnownNodeAddress t t.latestActiveAdcSensorNode.address = 0 := by
    rw [isKnownNodeAddress_eq_findSlot, h]; simp
  simp [registryStep, hk]

theorem findSlot_setSlot_same_address (t : State) (a j : Nat) (n : AdcSensorNode)
    (hn : n.address = (t.knownSensorNodes j).address) :
    findSlot { t with knownSensorNodes := setSlot t.knownSensorNodes j n } a = findSlot t a := by
  apply findSlot_loop_congr
  intro m _ _
  by_cases hm : m = j
  · subst hm; simp [setSlot, hn]
  · simp [setSlot, hm]

/-- After a registry step the lowest slot with the notified address holds the notified
node, unless the node was unknown and the cursor pointed behind the array. -/
theorem registryStep_stores (t : State)
    (h : (findSlot t t.latestActiveAdcSensorNode.address).isSome ∨
      t.lastAddedSensorNode < COORDINATOR_MAX_NODES) :
    ∃ j, findSlot (registryStep t) t.latestActiveAdcSensorNode.address = some j ∧
      (registryStep t).knownSensorNodes j = t.latestActiveAdcSensorNode := by
  cases hf : findSlot t t.latestActiveAdcSensorNode.address with
  | some j =>
    have hj := (findSlot_loop_some _ _ _ _ _ hf).2.2.1
    refine ⟨j, ?_, ?_⟩
    · rw [registryStep_known t j hf, findSlot_setSlot_same_address t _ j _ hj.symm, hf]
    · rw [registryStep_known t j hf]; simp [setSlot]
  | none =>
    have hc : t.lastAddedSensorNode < COORDINATOR_MAX_NODES := by
      rcases h with h | h
      · rw [hf] at h; simp at h
      · exact h
    have hn := findSlot_loop_none _ _ _ _ hf
    refine ⟨t.lastAddedSensorNode, ?_, ?_⟩
    · rw [registryStep_unknown t hf]
      apply findSlot_loop_of_first
      · exact Nat.zero_le _
      · omega
      · simp [addNewNode, setSlot]
      · intro m _ hm
        have : m ≠ t.lastAddedSensorNode := by omega
        simp only [addNewNode, setSlot, this, if_false]
        exact hn m (Nat.zero_le _) (by omega)
    · rw [registryStep_unknown t hf]; simp [addNewNode, setSlot]

theorem registryStep_cursor_behind (t : State)
    (hf : findSlot t t.latestActiveAdcSensorNode.address = none)
    (hc : ¬ t.lastAddedSensorNode < COORDINATOR_MAX_NODES) :
    (registryStep t).lastAddedSensorNode = 0 := by
  have h7 : COORDINATOR_MAX_NODES = 7 := rfl
  rw [registryStep_unknown t hf]
  simp only [addNewNode, h7] at *
  rw [if_pos (by omega)]

theorem addNewNode_frame (s : State) (n : AdcSensorNode) :
    (addNewNode s n).knownSensorNodes s.lastAddedSensorNode = n ∧
      (∀ i, i ≠ s.lastAddedSensorNode →
        (addNewNode s n).knownSensorNodes i = s.knownSensorNodes i) ∧
      (addNewNode s n).lastAddedSensorNode =
        (if s.lastAddedSensorNode < COORDINATOR_MAX_NODES - 1 then s.lastAddedSensorNode + 1
          else 0) := by
  have h7 : COORDINATOR_MAX_NODES = 7 := rfl
  refine ⟨by simp [addNewNode, setSlot], fun i hi => by simp [addNewNode, setSlot, hi], ?_⟩
  simp only [addNewNode, h7]
  split_ifs <;> omega

theorem registryStep_inv (t : State) (h : RegistryInv t) : RegistryInv (registryStep t) := by
  have h7 : COORDINATOR_MAX_NODES = 7 := rfl
  obtain ⟨hc, hz⟩ := h
  cases hf : findSlot t t.latestActiveAdcSensorNode.address with
  | some j =>
    have hj := (findSlot_loop_some _ _ _ _ _ hf).2.1
    rw [registryStep_known t j hf]
    refine ⟨hc, fun i hi => ?_⟩
    have : i ≠ j := by omega
    simp only [setSlot, this, if_false]
    exact hz i hi
  | none =>
    rw [registryStep_unknown t hf]
    obtain ⟨_, h2, h3⟩ := addNewNode_frame t t.latestActiveAdcSensorNode
    refine ⟨?_, fun i hi => ?_⟩
    · rw [h3, h7]; rw [h7] at hc; split_ifs <;> omega
    · rw [h2 i (by omega)]; exact hz i hi

theorem reachable_inv (t : State) (h : Reachable t) : RegistryInv t := by
  induction h with
  | init => exact ⟨by decide, fun _ _ => rfl⟩
  | post s node _ ih => exact ih
  | iteration s _ ih =>
    unfold coordinatorTaskIteration
    simp only
    split_ifs
    · exact ih
    · exact registryStep_inv _ ih
    · exact ih

theorem registryStep_add_of_ne (t : State)
    (h : ∀ i, i < COORDINATOR_MAX_NODES →
      (t.knownSensorNodes i).address ≠ t.latestActiveAdcSensorNode.address) :
    registryStep t = addNewNode t t.latestActiveAdcSensorNode := by
  have hk : isKnownNodeAddress t t.latestActiveAdcSensorNode.address = 0 := by
    rw [isKnownNodeAddress_eq_findSlot]
    cases hf : findSlot t t.latestActiveAdcSensorNode.address with
    | none => rfl
    | some j =>
      obtain ⟨_, h2, h3, _⟩ := findSlot_loop_some _ _ _ _ _ hf
      exact absurd h3 (h j (by omega))
  simp [registryStep, hk]


theorem processNotification_add (t : State) (n : AdcSensorNode)
    (h : ∀ i, i < COORDINATOR_MAX_NODES → (t.knownSensorNodes i).address ≠ n.address) :
    (processNotification t n).knownSensorNodes = setSlot t.knownSensorNodes t.lastAddedSensorNode n ∧
      (processNotification t n).lastAddedSensorNode =
        (if t.lastAddedSensorNode + 1 > COORDINATOR_MAX_NODES - 1 then 0
          else t.lastAddedSensorNode + 1) := by
  rw [processNotification_eq, registryStep_add_of_ne _ h]
  exact ⟨rfl, rfl⟩

/-- Notifications for addresses that are new to the registry and pairwise distinct, as
long as they fit between the cursor and the end of the array, fill the slots from the
cursor on, in order. -/
theorem processNotifications_fresh (ns : List AdcSensorNode) :
    ∀ s : State, s.lastAddedSensorNode + ns.length ≤ COORDINATOR_MAX_NODES →
      (ns.map (·.address)).Nodup →
      (∀ n ∈ ns, ∀ i, i < COORDINATOR_MAX_NODES → (s.knownSensorNodes i).address ≠ n.address) →
      (∀ i, (processNotifications s ns).knownSensorNodes i =
        if s.lastAddedSensorNode ≤ i ∧ i < s.lastAddedSensorNode + ns.length then
          ns.getD (i - s.lastAddedSensorNode) AdcSensorNode.zero
        else s.knownSensorNodes i) ∧
      (ns ≠ [] → (processNotifications s ns).lastAddedSensorNode =
        if s.lastAddedSensorNode + ns.length > COORDINATOR_MAX_NODES - 1 then 0
        else s.lastAddedSensorNode + ns.length) := by
  have h7 : COORDINATOR_MAX_NODES = 7 := rfl
  induction ns with
  | nil =>
    intro s _ _ _
    refine ⟨fun i => ?_, fun h => absurd rfl h⟩
    have : ¬ (s.lastAddedSensorNode ≤ i ∧ i < s.lastAddedSensorNode + ([] : List AdcSensorNode).length) := by
      simp
    rw [if_neg this]; rfl
  | cons n rest ih =>
    intro s hlen hnd hfresh
    obtain ⟨hks, hcur⟩ := processNotification_add s n (hfresh n (List.mem_cons_self _ _))
    rw [List.map_cons, List.nodup_cons] at hnd
    simp only [List.length_cons] at hlen ⊢
    by_cases hrest : rest = []
    · subst hrest
      simp only [processNotifications, List.length_nil, Nat.zero_add] at hlen ⊢
      refine ⟨fun i => ?_, fun _ => hcur⟩
      rw [hks]
      by_cases hi : i = s.lastAddedSensorNode
      · subst hi; simp [setSlot]
      · have : ¬ (s.lastAddedSensorNode ≤ i ∧ i < s.lastAddedSensorNode + 1) := by omega
        simp [setSlot, hi, this]
    · have hpos : 0 < rest.length := List.length_pos.mpr hrest
      have hcur1 : (processNotification s n).lastAddedSensorNode = s.lastAddedSensorNode + 1 := by
        rw [hcur, h7, if_neg (by omega)]
      obtain ⟨ih1, ih2⟩ := ih (processNotification s n) (by rw [hcur1]; omega) hnd.2 (by
        intro m hm i hi
        rw [hks]
        by_cases hic : i = s.lastAddedSensorNode
        · simp only [setSlot, hic, if_true]
          exact fun h => hnd.1 (List.mem_map.mpr ⟨m, hm, h.symm⟩)
        · simp only [setSlot, hic, if_false]
          exact hfresh m (List.mem_cons_of_mem _ hm) i hi)
      refine ⟨fun i => ?_, fun _ => ?_⟩
      · show (processNotifications (processNotification s n) rest).knownSensorNodes i = _
        rw [ih1 i, hcur1, hks]
        by_cases hic : i = s.lastAddedSensorNode
        · subst hic
          have e1 : ¬ (s.lastAddedSensorNode + 1 ≤ s.lastAddedSensorNode ∧
              s.lastAddedSensorNode < s.lastAddedSensorNode + 1 + rest.length) := by omega
          have e2 : s.lastAddedSensorNode ≤ s.lastAddedSensorNode ∧
              s.lastAddedSensorNode < s.lastAddedSensorNode + (rest.length + 1) := by omega
          simp [setSlot, e1, e2]
        · by_cases hin : s.lastAddedSensorNode + 1 ≤ i ∧ i < s.lastAddedSensorNode + 1 + rest.length
          · have e2 : s.lastAddedSensorNode ≤ i ∧ i < s.lastAddedSensorNode + (rest.length + 1) := by
              omega
            have e3 : i - s.lastAddedSensorNode = (i - (s.lastAddedSensorNode + 1)) + 1 := by omega
            rw [if_pos hin, if_pos e2, e3]
            rfl
          · have e2 : ¬ (s.lastAddedSensorNode ≤ i ∧ i < s.lastAddedSensorNode + (rest.length + 1)) := by
              omega
            rw [if_neg hin, if_neg e2]
            simp [setSlot, hic]
      · show (processNotifications (processNotification s n) rest).lastAddedSensorNode = _
        rw [ih2 hrest, hcur1, h7]
        have : s.lastAddedSensorNode + 1 + rest.length = s.lastAddedSensorNode + (rest.length + 1) := by
          omega
        rw [this]

/-- A notification for a known address overwrites the lowest slot holding that address
with the notified node and moves nothing else. -/
theorem processNotification_known (s : State) (node : AdcSensorNode)
    (h : isKnownNodeAddress s node.address ≠ 0) :
    ∃ k, findSlot s node.address = some k ∧
      (processNotification s node).knownSensorNodes = setSlot s.knownSensorNodes k node ∧
      (processNotification s node).lastAddedSensorNode = s.lastAddedSensorNode := by
  rw [isKnownNodeAddress_eq_findSlot] at h
  cases hf : findSlot s node.address with
  | none => rw [hf] at h; simp at h
  | some k =>
    refine ⟨k, rfl, ?_⟩
    have hk := registryStep_known
      { s with latestActiveAdcSensorNode := node, coordinatorEvent := 0 } k hf
    rw [processNotification_eq, hk]
    exact ⟨rfl, rfl⟩

theorem processNotification_unknown (s : State) (node : AdcSensorNode)
    (h : isKnownNodeAddress s node.address = 0) :
    (∀ i, i < COORDINATOR_MAX_NODES → (s.knownSensorNodes i).address ≠ node.address) ∧
      (processNotification s node).knownSensorNodes =
        setSlot s.knownSensorNodes s.lastAddedSensorNode node ∧
      (processNotification s node).lastAddedSensorNode =
        (if s.lastAddedSensorNode + 1 > COORDINATOR_MAX_NODES - 1 then 0
          else s.lastAddedSensorNode + 1) := by
  have hne := (isKnownNodeAddress_iff s node.address).2.mp h
  exact ⟨hne, processNotification_add s node hne⟩

theorem uniqueInv_init : UniqueInv State.init [] where
  cursor := by decide
  bound := fun j hj => absurd hj (List.not_mem_nil j)
  below := fun _ j => by
    constructor
    · intro hj; exact absurd hj (List.not_mem_nil j)
    · intro hj; exact absurd hj (Nat.not_lt_zero j)
  fresh := fun _ _ _ => ⟨rfl, fun _ => rfl⟩
  nonzero := fun _ j hj => absurd hj (List.not_mem_nil j)
  distinct := fun i _ hi => absurd hi (List.not_mem_nil i)

theorem uniqueInv_update (s t : State) (inserted : List Nat) (node : AdcSensorNode) (k : Nat)
    (inv : UniqueInv s inserted) (hk : findSlot s node.address = some k)
    (hks : t.knownSensorNodes = setSlot s.knownSensorNodes k node)
    (hcur : t.lastAddedSensorNode = s.lastAddedSensorNode) : UniqueInv t inserted := by
  obtain ⟨_, _, hka, hlow⟩ := findSlot_loop_some _ _ _ _ _ hk
  have haddr : ∀ i, (t.knownSensorNodes i).address = (s.knownSensorNodes i).address := by
    intro i
    rw [hks]
    by_cases hik : i = k
    · subst hik; simp [setSlot, hka]
    · simp [setSlot, hik]
  refine ⟨by rw [hcur]; exact inv.cursor, inv.bound, ?_, ?_, ?_, ?_⟩
  · intro hex j; rw [hcur]; exact inv.below hex j
  · intro i hi hni
    obtain ⟨h0, hz⟩ := inv.fresh i hi hni
    refine ⟨by rw [haddr]; exact h0, fun hlt => ?_⟩
    rw [hcur] at hlt
    have hcni : s.lastAddedSensorNode ∉ inserted := by
      intro hc
      have := (inv.below ⟨i, hi, hni⟩ s.lastAddedSensorNode).mp hc
      exact Nat.lt_irrefl _ this
    have hik : i ≠ k := by
      intro hik
      subst hik
      have hc0 := (inv.fresh s.lastAddedSensorNode inv.cursor hcni).1
      exact hlow s.lastAddedSensorNode (Nat.zero_le _) hlt (by rw [hc0, ← hka, h0])
    rw [hks]
    simp only [setSlot, hik, if_false]
    exact hz hlt
  · intro hex j hj
    rw [haddr]; exact inv.nonzero hex j hj
  · intro i j hi hj hij
    rw [haddr, haddr]; exact inv.distinct i j hi hj hij

theorem uniqueInv_add (s t : State) (inserted : List Nat) (node : AdcSensorNode)
    (inv : UniqueInv s inserted)
    (hnew : ∀ i, i < COORDINATOR_MAX_NODES → (s.knownSensorNodes i).address ≠ node.address)
    (hks : t.knownSensorNodes = setSlot s.knownSensorNodes s.lastAddedSensorNode node)
    (hcur : t.lastAddedSensorNode =
      (if s.lastAddedSensorNode + 1 > COORDINATOR_MAX_NODES - 1 then 0
        else s.lastAddedSensorNode + 1)) :
    UniqueInv t (s.lastAddedSensorNode :: inserted) := by
  have h7 : COORDINATOR_MAX_NODES = 7 := rfl
  have hc := inv.cursor
  -- a slot that is still never-inserted lies above the old cursor
  have habove : ∀ i, i < COORDINATOR_MAX_NODES → i ∉ s.lastAddedSensorNode :: inserted →
      i ∉ inserted ∧ s.lastAddedSensorNode < i ∧
        t.lastAddedSensorNode = s.lastAddedSensorNode + 1 := by
    intro i hi hni
    have h1 : i ≠ s.lastAddedSensorNode := fun h => hni (h ▸ List.mem_cons_self _ _)
    have h2 : i ∉ inserted := fun h => hni (List.mem_cons_of_mem _ h)
    have h3 : ¬ i < s.lastAddedSensorNode := fun h => h2 ((inv.below ⟨i, hi, h2⟩ i).mpr h)
    have h4 : s.lastAddedSensorNode < i := by omega
    refine ⟨h2, h4, ?_⟩
    rw [hcur, h7, if_neg (by omega)]
  refine ⟨?_, ?_, ?_, ?_, ?_, ?_⟩
  · rw [hcur, h7]; rw [h7] at hc; split_ifs <;> omega
  · intro j hj
    rcases List.mem_cons.mp hj with h | h
    · rw [h]; exact hc
    · exact inv.bound j h
  · rintro ⟨i, hi, hni⟩ j
    obtain ⟨h2, _, h5⟩ := habove i hi hni
    rw [h5, List.mem_cons, inv.below ⟨i, hi, h2⟩ j]
    omega
  · intro i hi hni
    obtain ⟨h2, h4, h5⟩ := habove i hi hni
    have h1 : i ≠ s.lastAddedSensorNode := by omega
    obtain ⟨h0, hz⟩ := inv.fresh i hi h2
    rw [hks]
    simp only [setSlot, h1, if_false]
    exact ⟨h0, fun _ => hz h4⟩
  · rintro ⟨i, hi, hni⟩ j hj
    obtain ⟨h2, _, _⟩ := habove i hi hni
    have hcni : s.lastAddedSensorNode ∉ inserted := by
      intro hcin
      exact Nat.lt_irrefl _ ((inv.below ⟨i, hi, h2⟩ s.lastAddedSensorNode).mp hcin)
    rw [hks]
    rcases List.mem_cons.mp hj with h | h
    · subst h
      simp only [setSlot, if_true]
      intro ha
      exact hnew i hi (by rw [(inv.fresh i hi h2).1, ha])
    · have hjc : j ≠ s.lastAddedSensorNode := fun e => hcni (e ▸ h)
      simp only [setSlot, hjc, if_false]
      exact inv.nonzero ⟨i, hi, h2⟩ j h
  · intro i j hi hj hij
    rw [hks]
    by_cases hic : i = s.lastAddedSensorNode
    · have hjc : j ≠ s.lastAddedSensorNode := fun e => hij (hic.trans e.symm)
      have hjin : j ∈ inserted := by
        rcases List.mem_cons.mp hj with h | h
        · exact absurd h hjc
        · exact h
      simp only [setSlot, hic, hjc, if_true, if_false]
      exact fun e => hnew j (inv.bound j hjin) e.symm
    · have hiin : i ∈ inserted := by
        rcases List.mem_cons.mp hi with h | h
        · exact absurd h hic
        · exact h
      by_cases hjc : j = s.lastAddedSensorNode
      · simp only [setSlot, hic, hjc, if_true, if_false]
        exact hnew i (inv.bound i hiin)
      · have hjin : j ∈ inserted := by
          rcases List.mem_cons.mp hj with h | h
          · exact absurd h hjc
          · exact h
        simp only [setSlot, hic, hjc, if_false]
        exact inv.distinct i j hiin hjin hij

theorem registryRun_inv (s : State) (inserted : List Nat) (h : RegistryRun s inserted) :
    UniqueInv s inserted := by
  induction h with
  | init => exact uniqueInv_init
  | update s inserted node _ hknown ih =>
    obtain ⟨k, hk, hks, hcur⟩ := processNotification_known s node hknown
    exact uniqueInv_update s _ inserted node k ih hk hks hcur
  | add s inserted node _ hunknown ih =>
    obtain ⟨hnew, hks, hcur⟩ := processNotification_unknown s node hunknown
    exact uniqueInv_add s _ inserted node ih hnew hks hcur

end CoordinatorTask

/-! ## Lemmas about the radio task -/

namespace CoordinatorRFTask
open RadioProtocol

theorem acks_append (l1 l2 : List Effect) : acks (l1 ++ l2) = acks l1 ++ acks l2 := by
  induction l1 with
  | nil => rfl
  | cons e l ih => cases e <;> simp [acks, ih]

theorem notifications_append (l1 l2 : List Effect) :
    notifications (l1 ++ l2) = notifications l1 ++ notifications l2 := by
  induction l1 with
  | nil => rfl
  | cons e l ih => cases e <;> simp [notifications, ih]

theorem receiveAsyncCalls_append (l1 l2 : List Effect) :
    receiveAsyncCalls (l1 ++ l2) = receiveAsyncCalls l1 + receiveAsyncCalls l2 := by
  induction l1 with
  | nil => simp [receiveAsyncCalls]
  | cons e l ih =>
    cases e <;> simp [receiveAsyncCalls, ih]
    omega

theorem valid_bit_posted (e : Nat) :
    e ||| RADIO_EVENT_VALID_PACKET_RECEIVED ≠ 0 ∧
      (e ||| RADIO_EVENT_VALID_PACKET_RECEIVED) &&& RADIO_EVENT_VALID_PACKET_RECEIVED ≠ 0 := by
  have h1 : RADIO_EVENT_VALID_PACKET_RECEIVED = 1 := rfl
  rw [h1]
  have h2 : (e ||| 1) &&& 1 = 1 := by simp
  refine ⟨fun h => ?_, by omega⟩
  rw [h] at h2
  simp at h2

theorem invalid_bit_posted (e : Nat) :
    (e ||| RADIO_EVENT_INVALID_PACKET_RECEIVED) &&& RADIO_EVENT_VALID_PACKET_RECEIVED
        = e &&& RADIO_EVENT_VALID_PACKET_RECEIVED ∧
      (e ||| RADIO_EVENT_INVALID_PACKET_RECEIVED) &&& RADIO_EVENT_INVALID_PACKET_RECEIVED ≠ 0 ∧
      e ||| RADIO_EVENT_INVALID_PACKET_RECEIVED ≠ 0 := by
  have h1 : RADIO_EVENT_VALID_PACKET_RECEIVED = 1 := rfl
  have h2 : RADIO_EVENT_INVALID_PACKET_RECEIVED = 2 := rfl
  rw [h1, h2]
  have h3 : (e ||| 2) &&& 2 = 2 := by
    apply Nat.eq_of_testBit_eq
    intro i
    simp only [Nat.testBit_and, Nat.testBit_or]
    cases e.testBit i <;> simp
  refine ⟨?_, by omega, fun h => ?_⟩
  · rw [Nat.and_comm, Nat.and_or_distrib_left]; simp
  · rw [h] at h3; simp at h3

theorem rxDoneCallback_rejected (P : RadioProtocol) (s : State) (rxPacket : EasyLink_RxPacket)
    (status : EasyLink_Status)
    (h : status = EasyLink_Status.Success →
      packetType rxPacket.payload ≠ P.RADIO_PACKET_TYPE_ADC_SENSOR_PACKET ∧
      packetType rxPacket.payload ≠ P.RADIO_PACKET_TYPE_DM_SENSOR_PACKET) :
    (rxDoneCallback P s rxPacket status).radioOperationEvent =
        s.radioOperationEvent ||| RADIO_EVENT_INVALID_PACKET_RECEIVED ∧
      (rxDoneCallback P s rxPacket status).radioOperationEvent &&& RADIO_EVENT_VALID_PACKET_RECEIVED =
        s.radioOperationEvent &&& RADIO_EVENT_VALID_PACKET_RECEIVED ∧
      (rxDoneCallback P s rxPacket status).latestRxPacket = s.latestRxPacket := by
  obtain ⟨hb, _, _⟩ := invalid_bit_posted s.radioOperationEvent
  by_cases hs : status = EasyLink_Status.Success
  · obtain ⟨h1, h2⟩ := h hs
    simp [rxDoneCallback, hs, h1, h2, hb]
  · simp [rxDoneCallback, hs, hb]

/-- The valid-packet branch when the Ack transmission succeeds: one Ack to the source
address of the buffered packet, then one callback invocation with the buffered packet
and the recorded rssi; the receive call behind them adds neither. -/
theorem validPacketReceived_trace (P : RadioProtocol) (adapter : Adapter) (s : State)
    (callback : CoordinatorRadio_PacketReceivedCallback)
    (hcb : s.packetReceivedCallback = some callback)
    (htx : adapter.transmit = EasyLink_Status.Success) :
    acks (stateOf (validPacketReceived P adapter s)).trace =
        acks s.trace ++ [EasyLink_TxPacket.mk (sourceAddress s.latestRxPacket) P.sizeofAckPacket
          (memcpy s.txPacket.payload s.ackPacket P.sizeofAckPacket)] ∧
      notifications (stateOf (validPacketReceived P adapter s)).trace =
        notifications s.trace ++ [(s.latestRxPacket, s.latestRssi)] ∧
      (stateOf (validPacketReceived P adapter s)).coordinator =
        callback s.latestRxPacket s.latestRssi s.coordinator := by
  by_cases hrx : adapter.receiveAsyncValid = EasyLink_Status.Success
  · simp [validPacketReceived, sendAck, notifyPacketReceived, receiveAsyncOrAbort, hcb, htx, hrx,
      stateOf, acks_append, notifications_append, acks, notifications]
  · simp [validPacketReceived, sendAck, notifyPacketReceived, receiveAsyncOrAbort, hcb, htx, hrx,
      stateOf, acks_append, notifications_append, acks, notifications]

theorem receiveAsyncOrAbort_trace (status : EasyLink_Status) (s : State) :
    acks (stateOf (receiveAsyncOrAbort status s)).trace = acks s.trace ∧
      notifications (stateOf (receiveAsyncOrAbort status s)).trace = notifications s.trace ∧
      (stateOf (receiveAsyncOrAbort status s)).coordinator = s.coordinator := by
  by_cases h : status = EasyLink_Status.Success <;>
    simp [receiveAsyncOrAbort, h, stateOf, acks_append, notifications_append, acks, notifications]

theorem iteration_valid_trace (P : RadioProtocol) (adapter : Adapter) (s : State)
    (callback : CoordinatorRadio_PacketReceivedCallback)
    (hcb : s.packetReceivedCallback = some callback)
    (htx : adapter.transmit = EasyLink_Status.Success)
    (hev : s.radioOperationEvent ≠ 0)
    (hv : s.radioOperationEvent &&& RADIO_EVENT_VALID_PACKET_RECEIVED ≠ 0) :
    acks (stateOf (coordinatorRFTaskIteration P adapter s)).trace =
        acks s.trace ++ [EasyLink_TxPacket.mk (sourceAddress s.latestRxPacket) P.sizeofAckPacket
          (memcpy s.txPacket.payload s.ackPacket P.sizeofAckPacket)] ∧
      notifications (stateOf (coordinatorRFTaskIteration P adapter s)).trace =
        notifications s.trace ++ [(s.latestRxPacket, s.latestRssi)] ∧
      (stateOf (coordinatorRFTaskIteration P adapter s)).coordinator =
        callback s.latestRxPacket s.latestRssi s.coordinator := by
  have key := validPacketReceived_trace P adapter { s with radioOperationEvent := 0 } callback
    hcb htx
  simp only [coordinatorRFTaskIteration, hev, hv, if_false, ne_eq, not_false_eq_true, if_true]
  cases hr : validPacketReceived P adapter { s with radioOperationEvent := 0 } with
  | error s2 =>
    rw [hr] at key
    exact key
  | ok s2 =>
    rw [hr] at key
    simp only [stateOf] at key
    by_cases hi : s.radioOperationEvent &&& RADIO_EVENT_INVALID_PACKET_RECEIVED = 0
    · simp only [hi, not_true_eq_false, if_false, stateOf]
      exact key
    · simp only [hi, not_false_eq_true, if_true]
      obtain ⟨h1, h2, h3⟩ := receiveAsyncOrAbort_trace adapter.receiveAsyncInvalid s2
      rw [h1, h2, h3]
      exact key

theorem memcpy_lt (dst src : Bytes) (n i : Nat) (h : i < n) : memcpy dst src n i = src i := by
  simp [memcpy, h]

theorem toInt8_of_int8 (r : Int) (h1 : -128 ≤ r) (h2 : r ≤ 127) : toInt8 r = r := by
  unfold toInt8; omega

theorem endToEnd_ok (P : RadioProtocol) (hP : P.WellFormed) (adapter : Adapter)
    (h1 : adapter.init = EasyLink_Status.Success)
    (h2 : adapter.transmit = EasyLink_Status.Success)
    (h3 : adapter.receiveAsyncStart = EasyLink_Status.Success)
    (h4 : adapter.receiveAsyncValid = EasyLink_Status.Success)
    (a v : Nat) (r : Int) (hr1 : -128 ≤ r) (hr2 : r ≤ 127) :
    ∃ s, endToEnd P adapter a v r = Except.ok s ∧
      s.coordinator = CoordinatorTask.processNotification CoordinatorTask.State.init
        { address := a, latestAdcValue := v, button := 0, latestRssi := r } ∧
      s.trace = [Effect.init, Effect.enableRxAddrFilter P.RADIO_COORDINATOR_ADDRESS,
        Effect.receiveAsync,
        Effect.transmit (EasyLink_TxPacket.mk a P.sizeofAckPacket
          (memcpy (fun _ => 0) (setByte (setByte (fun _ => 0) 0 P.RADIO_COORDINATOR_ADDRESS) 1
            P.RADIO_PACKET_TYPE_ACK_PACKET) P.sizeofAckPacket)),
        Effect.packetReceived
          (memcpy (fun _ => 0) (adcSensorFrame P a v r).payload P.sizeofAdcSensorPacket) r,
        Effect.receiveAsync, Effect.setOutputValue 1] := by
  obtain ⟨_, _, _, _, hadc, _, _⟩ := hP
  have hv : (1 : Nat) &&& RADIO_EVENT_VALID_PACKET_RECEIVED = 1 := by decide
  have hi : (1 : Nat) &&& RADIO_EVENT_INVALID_PACKET_RECEIVED = 0 := by decide
  have h01 : (0 : Nat) ||| RADIO_EVENT_VALID_PACKET_RECEIVED = 1 := by decide
  have hpt : packetType (adcSensorFrame P a v r).payload = P.RADIO_PACKET_TYPE_ADC_SENSOR_PACKET :=
    rfl
  have hrssi : toInt8 (adcSensorFrame P a v r).rssi = r := toInt8_of_int8 r hr1 hr2
  have e0 : sourceAddress (memcpy (fun _ => 0) (adcSensorFrame P a v r).payload
      P.sizeofAdcSensorPacket) = a := by
    simp [sourceAddress, memcpy, adcSensorFrame, bytesOf, (by omega : 0 < P.sizeofAdcSensorPacket)]
  have hcb : CoordinatorTask.packetReceivedCallback P CoordinatorTask.State.init
      (memcpy (fun _ => 0) (adcSensorFrame P a v r).payload P.sizeofAdcSensorPacket) r =
      CoordinatorTask.postNewValue CoordinatorTask.State.init
        { address := a, latestAdcValue := v, button := 0, latestRssi := r } := by
    have e1 : packetType (memcpy (fun _ => 0) (adcSensorFrame P a v r).payload
        P.sizeofAdcSensorPacket) = P.RADIO_PACKET_TYPE_ADC_SENSOR_PACKET := by
      simp [packetType, memcpy, adcSensorFrame, bytesOf, (by omega : 1 < P.sizeofAdcSensorPacket)]
    have e2 : adcValue (memcpy (fun _ => 0) (adcSensorFrame P a v r).payload
        P.sizeofAdcSensorPacket) = v := by
      simp [adcValue, memcpy, adcSensorFrame, bytesOf, (by omega : 2 < P.sizeofAdcSensorPacket),
        (by omega : 3 < P.sizeofAdcSensorPacket)]
      omega
    simp only [CoordinatorTask.packetReceivedCallback, e1, if_true, e0, e2]
  simp [endToEnd, started, coordinatorRFTaskStart, receiveAsyncOrAbort, h1, h2, h3, h4,
      CoordinatorRadioTask_registerPacketReceivedCallback, State.init, rxDoneCallback, hpt,
      coordinatorRFTaskIteration, validPacketReceived, sendAck, notifyPacketReceived, h01, hv, hi,
      hrssi, e0, registryCallback, hcb, CoordinatorTask.processNotification]

/-- The effects of the valid-packet branch, in order, for each answer of the adapter. -/
theorem validPacketReceived_effects (P : RadioProtocol) (adapter : Adapter) (s : State)
    (callback : CoordinatorRadio_PacketReceivedCallback)
    (hcb : s.packetReceivedCallback = some callback) :
    (adapter.transmit ≠ EasyLink_Status.Success →
      aborted (validPacketReceived P adapter s) = true ∧
      (stateOf (validPacketReceived P adapter s)).trace = s.trace ++
        [Effect.transmit (EasyLink_TxPacket.mk (sourceAddress s.latestRxPacket) P.sizeofAckPacket
          (memcpy s.txPacket.payload s.ackPacket P.sizeofAckPacket))]) ∧
    (adapter.transmit = EasyLink_Status.Success →
      adapter.receiveAsyncValid ≠ EasyLink_Status.Success →
      aborted (validPacketReceived P adapter s) = true ∧
      (stateOf (validPacketReceived P adapter s)).trace = s.trace ++
        [Effect.transmit (EasyLink_TxPacket.mk (sourceAddress s.latestRxPacket) P.sizeofAckPacket
          (memcpy s.txPacket.payload s.ackPacket P.sizeofAckPacket)),
         Effect.packetReceived s.latestRxPacket s.latestRssi,
         Effect.receiveAsync]) ∧
    (adapter.transmit = EasyLink_Status.Success →
      adapter.receiveAsyncValid = EasyLink_Status.Success →
      aborted (validPacketReceived P adapter s) = false ∧
      (stateOf (validPacketReceived P adapter s)).trace = s.trace ++
        [Effect.transmit (EasyLink_TxPacket.mk (sourceAddress s.latestRxPacket) P.sizeofAckPacket
          (memcpy s.txPacket.payload s.ackPacket P.sizeofAckPacket)),
         Effect.packetReceived s.latestRxPacket s.latestRssi,
         Effect.receiveAsync,
         Effect.setOutputValue (if s.activityLed = 0 then 1 else 0)]) := by
  refine ⟨fun h1 => ?_, fun h1 h2 => ?_, fun h1 h2 => ?_⟩
  · simp [validPacketReceived, sendAck, h1, aborted, stateOf]
  · simp [validPacketReceived, sendAck, notifyPacketReceived, receiveAsyncOrAbort, hcb, h1, h2,
      aborted, stateOf]
  · simp [validPacketReceived, sendAck, notifyPacketReceived, receiveAsyncOrAbort, hcb, h1, h2,
      aborted, stateOf]

/-- With only the valid-packet signal pending, an iteration is the valid-packet branch. -/
theorem iteration_only_valid (P : RadioProtocol) (adapter : Adapter) (s : State)
    (h : s.radioOperationEvent = RADIO_EVENT_VALID_PACKET_RECEIVED) :
    coordinatorRFTaskIteration P adapter s =
      validPacketReceived P adapter { s with radioOperationEvent := 0 } := by
  have h1 : RADIO_EVENT_VALID_PACKET_RECEIVED ≠ 0 := by decide
  have h2 : RADIO_EVENT_VALID_PACKET_RECEIVED &&& RADIO_EVENT_VALID_PACKET_RECEIVED ≠ 0 := by
    decide
  have h3 : RADIO_EVENT_VALID_PACKET_RECEIVED &&& RADIO_EVENT_INVALID_PACKET_RECEIVED = 0 := by
    decide
  simp only [coordinatorRFTaskIteration, h, h1, h2, h3, if_false, ne_eq, not_false_eq_true,
    if_true, not_true_eq_false]
  cases validPacketReceived P adapter { s with radioOperationEvent := 0 } <;> rfl

/-- What a successful completion with a sensor packet type leaves behind, apart from the
buffer and the two sinks. -/
theorem rxDoneCallback_accepted (P : RadioProtocol) (s : State) (rxPacket : EasyLink_RxPacket)
    (hty : packetType rxPacket.payload = P.RADIO_PACKET_TYPE_ADC_SENSOR_PACKET ∨
      packetType rxPacket.payload = P.RADIO_PACKET_TYPE_DM_SENSOR_PACKET) :
    (rxDoneCallback P s rxPacket EasyLink_Status.Success).radioOperationEvent =
        s.radioOperationEvent ||| RADIO_EVENT_VALID_PACKET_RECEIVED ∧
      (rxDoneCallback P s rxPacket EasyLink_Status.Success).latestRssi = toInt8 rxPacket.rssi ∧
      (rxDoneCallback P s rxPacket EasyLink_Status.Success).packetReceivedCallback =
        s.packetReceivedCallback ∧
      (rxDoneCallback P s rxPacket EasyLink_Status.Success).trace = s.trace ∧
      (rxDoneCallback P s rxPacket EasyLink_Status.Success).txPacket = s.txPacket ∧
      (rxDoneCallback P s rxPacket EasyLink_Status.Success).ackPacket = s.ackPacket ∧
      (rxDoneCallback P s rxPacket EasyLink_Status.Success).activityLed = s.activityLed ∧
      (rxDoneCallback P s rxPacket EasyLink_Status.Success).coordinator = s.coordinator := by
  by_cases h : packetType rxPacket.payload = P.RADIO_PACKET_TYPE_ADC_SENSOR_PACKET
  · simp [rxDoneCallback, h]
  · have h2 : packetType rxPacket.payload = P.RADIO_PACKET_TYPE_DM_SENSOR_PACKET := by
      rcases hty with h3 | h3
      · exact absurd h3 h
      · exact h3
    rw [h2] at h
    simp only [rxDoneCallback, h2, h, if_true, if_false]
    split_ifs <;> simp

end CoordinatorRFTask

/-! ## The claims -/

namespace CoordinatorTask
open RadioProtocol

/-- Claim C1, counterexample: the addresses 1, 2, 0, 3, 4, 5, 6 are pairwise distinct and
7 differs from all of them, yet after the eight notifications a lookup of the first
address 1 still returns found, a lookup of the third address 0 returns not found, the
slots hold the addresses 1 to 7 in order, and slot 0 does not hold the eighth node: the
notification for address 0 matched a zero-initialised slot and inserted nothing. -/
theorem ring_eviction_fails_with_zero_address :
    (evictionTrial.map (·.address)).Nodup ∧
      isKnownNodeAddress (processNotifications State.init evictionTrial) 1 = 1 ∧
      isKnownNodeAddress (processNotifications State.init evictionTrial) 0 = 0 ∧
      (slots (processNotifications State.init evictionTrial)).map (·.address)
        = [1, 2, 3, 4, 5, 6, 7] ∧
      (processNotifications State.init evictionTrial).knownSensorNodes 0 ≠ nodeOf 7 18 := by
  decide

/-- Claim C1, amended: starting from the initial registry, for every 7 notifications with
pairwise distinct addresses that are all different from 0x00 and every 8th notification
whose address differs from all of them, after the main-loop step has processed the first
seven the first node is in slot 0, and after it has processed all eight a lookup of the
1st address returns not found, a lookup of each of the 2nd to 7th address returns found,
and the 8th node is stored in slot 0, which is the slot a lookup of its address finds. -/
theorem ring_eviction_nonzero_addresses (n1 n2 n3 n4 n5 n6 n7 n8 : AdcSensorNode)
    (hd : [n1.address, n2.address, n3.address, n4.address, n5.address, n6.address, n7.address,
      n8.address].Nodup)
    (hz : ∀ a ∈ [n1.address, n2.address, n3.address, n4.address, n5.address, n6.address,
      n7.address], a ≠ 0) :
    (processNotifications State.init [n1, n2, n3, n4, n5, n6, n7]).knownSensorNodes 0 = n1 ∧
    isKnownNodeAddress (processNotifications State.init [n1, n2, n3, n4, n5, n6, n7, n8])
      n1.address = 0 ∧
    (∀ n ∈ [n2, n3, n4, n5, n6, n7],
      isKnownNodeAddress (processNotifications State.init [n1, n2, n3, n4, n5, n6, n7, n8])
        n.address = 1) ∧
    (processNotifications State.init [n1, n2, n3, n4, n5, n6, n7, n8]).knownSensorNodes 0 = n8 ∧
    findSlot (processNotifications State.init [n1, n2, n3, n4, n5, n6, n7, n8]) n8.address
      = some 0 := by
  have h7 : COORDINATOR_MAX_NODES = 7 := rfl
  -- the first seven notifications fill the seven slots in order
  obtain ⟨hks, hcur⟩ := processNotifications_fresh [n1, n2, n3, n4, n5, n6, n7] State.init
    (Nat.le_refl 7)
    (by
      have h := (List.nodup_append.mp
        (show ([n1.address, n2.address, n3.address, n4.address, n5.address, n6.address,
          n7.address] ++ [n8.address]).Nodup from hd)).1
      exact h)
    (by
      intro n hn i _
      have h := hz n.address (List.mem_map.mpr ⟨n, hn, rfl⟩)
      exact fun e => h e.symm)
  have hcur7 : (processNotifications State.init [n1, n2, n3, n4, n5, n6, n7]).lastAddedSensorNode
      = 0 := hcur (by simp)
  simp only [List.nodup_cons, List.mem_cons, List.mem_singleton, not_or, List.not_mem_nil,
    not_false_eq_true, List.nodup_nil, and_true] at hd
  obtain ⟨⟨h12, h13, h14, h15, h16, h17, h18⟩, ⟨_, _, _, _, _, h28⟩, ⟨_, _, _, _, h38⟩,
    ⟨_, _, _, h48⟩, ⟨_, _, h58⟩, ⟨_, h68⟩, h78⟩ := hd
  -- the eighth address is new, so the eighth node goes where the cursor points: slot 0
  have hstep : processNotifications State.init [n1, n2, n3, n4, n5, n6, n7, n8] =
      processNotification (processNotifications State.init [n1, n2, n3, n4, n5, n6, n7]) n8 := rfl
  obtain ⟨hks8, _⟩ := processNotification_add
    (processNotifications State.init [n1, n2, n3, n4, n5, n6, n7]) n8 (by
      intro i hi
      rw [hks i, h7] at *
      interval_cases i <;> simp [State.init, h18, h28, h38, h48, h58, h68, h78])
  rw [hcur7] at hks8
  have hslot : ∀ i, i < 7 → (processNotifications State.init
      [n1, n2, n3, n4, n5, n6, n7, n8]).knownSensorNodes i =
      [n8, n2, n3, n4, n5, n6, n7].getD i AdcSensorNode.zero := by
    intro i hi
    rw [hstep, hks8, setSlot, hks i]
    interval_cases i <;> simp [State.init]
  have hfound : ∀ i, i < 7 → isKnownNodeAddress
      (processNotifications State.init [n1, n2, n3, n4, n5, n6, n7, n8])
      ([n8, n2, n3, n4, n5, n6, n7].getD i AdcSensorNode.zero).address = 1 := by
    intro i hi
    rw [(isKnownNodeAddress_iff _ _).1]
    exact ⟨i, hi, by rw [hslot i hi]⟩
  refine ⟨?_, ?_, ?_, ?_, ?_⟩
  · rw [hks 0]; simp [State.init]
  · rw [(isKnownNodeAddress_iff _ _).2]
    intro i hi
    rw [hslot i hi]
    rw [h7] at hi
    interval_cases i <;>
      simp [Ne.symm h12, Ne.symm h13, Ne.symm h14, Ne.symm h15, Ne.symm h16, Ne.symm h17,
        Ne.symm h18]
  · intro n hn
    simp only [List.mem_cons, List.mem_singleton, List.not_mem_nil, or_false] at hn
    rcases hn with rfl | rfl | rfl | rfl | rfl | rfl
    · exact hfound 1 (by decide)
    · exact hfound 2 (by decide)
    · exact hfound 3 (by decide)
    · exact hfound 4 (by decide)
    · exact hfound 5 (by decide)
    · exact hfound 6 (by decide)
  · exact hslot 0 (by decide)
  · apply findSlot_loop_of_first
    · exact Nat.le_refl _
    · decide
    · show ((processNotifications State.init
        [n1, n2, n3, n4, n5, n6, n7, n8]).knownSensorNodes 0).address = n8.address
      rw [hslot 0 (by decide)]; rfl
    · intro m h1 h2; omega

/-- Claim C1, the amended statement at the addresses 1 to 8. -/
theorem ring_eviction_nonzero_addresses_witness :
    [1, 2, 3, 4, 5, 6, 7, 8].Nodup ∧
      isKnownNodeAddress (processNotifications State.init
        [nodeOf 1 11, nodeOf 2 12, nodeOf 3 13, nodeOf 4 14, nodeOf 5 15, nodeOf 6 16,
          nodeOf 7 17, nodeOf 8 18]) (nodeOf 1 11).address = 0 ∧
      (processNotifications State.init
        [nodeOf 1 11, nodeOf 2 12, nodeOf 3 13, nodeOf 4 14, nodeOf 5 15, nodeOf 6 16,
          nodeOf 7 17, nodeOf 8 18]).knownSensorNodes 0 = nodeOf 8 18 :=
  ⟨by decide,
    (ring_eviction_nonzero_addresses (nodeOf 1 11) (nodeOf 2 12) (nodeOf 3 13) (nodeOf 4 14)
      (nodeOf 5 15) (nodeOf 6 16) (nodeOf 7 17) (nodeOf 8 18) (by decide) (by decide)).2.1,
    (ring_eviction_nonzero_addresses (nodeOf 1 11) (nodeOf 2 12) (nodeOf 3 13) (nodeOf 4 14)
      (nodeOf 5 15) (nodeOf 6 16) (nodeOf 7 17) (nodeOf 8 18) (by decide) (by decide)).2.2.2.1⟩

/-- Claim C2. Last-write-wins: from every registry state, after two notifications for the
same address `a` (with any adcValue, button and rssi) have each been processed by the
main-loop step, a lookup of `a` returns found and the slot it finds, the lowest-index
slot whose address is `a`, holds the adcValue, button and rssi of the second
notification. -/
theorem last_write_wins (s : State) (a v1 b1 v2 b2 : Nat) (r1 r2 : Int) :
    ∃ j,
      findSlot (processNotification (processNotification s ⟨a, v1, b1, r1⟩) ⟨a, v2, b2, r2⟩) a
          = some j ∧
        isKnownNodeAddress
          (processNotification (processNotification s ⟨a, v1, b1, r1⟩) ⟨a, v2, b2, r2⟩) a = 1 ∧
        (processNotification (processNotification s ⟨a, v1, b1, r1⟩) ⟨a, v2, b2, r2⟩).knownSensorNodes
          j = ⟨a, v2, b2, r2⟩ := by
  rw [processNotification_eq, processNotification_eq]
  generalize ht0 : ({ s with latestActiveAdcSensorNode := ⟨a, v1, b1, r1⟩, coordinatorEvent := 0 } : State) = t0
  have ha0 : t0.latestActiveAdcSensorNode.address = a := by rw [← ht0]
  generalize ht1 : ({ registryStep t0 with
    latestActiveAdcSensorNode := ⟨a, v2, b2, r2⟩, coordinatorEvent := 0 } : State) = t1
  have ha1 : t1.latestActiveAdcSensorNode = ⟨a, v2, b2, r2⟩ := by rw [← ht1]
  have hks : t1.knownSensorNodes = (registryStep t0).knownSensorNodes := by rw [← ht1]
  have hcur : t1.lastAddedSensorNode = (registryStep t0).lastAddedSensorNode := by rw [← ht1]
  have hfind : findSlot t1 a = findSlot (registryStep t0) a := by
    simp only [findSlot, hks]
  have key : (findSlot t1 t1.latestActiveAdcSensorNode.address).isSome ∨
      t1.lastAddedSensorNode < COORDINATOR_MAX_NODES := by
    rw [ha1]
    show (findSlot t1 a).isSome ∨ _
    rw [hfind, hcur]
    by_cases h : (findSlot t0 t0.latestActiveAdcSensorNode.address).isSome ∨
        t0.lastAddedSensorNode < COORDINATOR_MAX_NODES
    · obtain ⟨j, hj, _⟩ := registryStep_stores t0 h
      rw [ha0] at hj
      left; rw [hj]; rfl
    · right
      have hf : findSlot t0 t0.latestActiveAdcSensorNode.address = none := by
        cases hf : findSlot t0 t0.latestActiveAdcSensorNode.address with
        | none => rfl
        | some j => exact absurd (Or.inl (by rw [hf]; rfl)) h
      rw [registryStep_cursor_behind t0 hf (fun hc => h (Or.inr hc))]
      decide
  obtain ⟨j, hj1, hj2⟩ := registryStep_stores t1 key
  rw [ha1] at hj1 hj2
  refine ⟨j, hj1, ?_, hj2⟩
  rw [isKnownNodeAddress_eq_findSlot, hj1]; rfl

/-- Claim C3. Zero-slot edge case: in the initial registry state, where every one of the 7
slots is zero-initialised and no notification has been processed, `isKnownNodeAddress`
of address 0x00 returns found (1). -/
theorem zero_address_known_initially :
    isKnownNodeAddress State.init 0 = 1 ∧
      ∀ i, i < COORDINATOR_MAX_NODES → State.init.knownSensorNodes i = AdcSensorNode.zero :=
  ⟨by decide, fun _ _ => rfl⟩

end CoordinatorTask

namespace CoordinatorRFTask
open RadioProtocol

/-- Claim C4, counterexample: after a successful start-up with the registry callback
registered and no event pending, an AdcSensor frame from address 0x05 completes with
success, but the adapter reports the Ack transmission as failed: the iteration hands one
Ack for address 0x05 to the adapter and is aborted there, so the notification callback is
not invoked at all and the registry task sees no new value. -/
theorem ack_transmit_failure_skips_notification :
    RadioProtocol.spec.WellFormed ∧
      (stateOf (started RadioProtocol.spec Adapter.success)).packetReceivedCallback.isSome = true ∧
      (stateOf (started RadioProtocol.spec Adapter.success)).radioOperationEvent = 0 ∧
      packetType (adcSensorFrame RadioProtocol.spec 5 300 (-60)).payload =
        RadioProtocol.spec.RADIO_PACKET_TYPE_ADC_SENSOR_PACKET ∧
      aborted ackFailureRun = true ∧
      (acks (stateOf ackFailureRun).trace).map (·.dstAddr0) = [5] ∧
      (notifications (stateOf ackFailureRun).trace).length = 0 ∧
      (stateOf ackFailureRun).coordinator.coordinatorEvent = 0 := by
  decide

/-- Claim C4, amended: for every successfully received frame whose header packetType is
AdcSensor or DualModeSensor, when a notification callback is registered and the adapter
reports the Ack transmission as successful, `rxDoneCallback` followed by the main-loop
iteration it wakes transmits exactly one Ack, whose destination address is the frame's
sourceAddress and whose payload is the Ack packet, and invokes the callback exactly once,
passing the buffered packet (with the frame's sourceAddress, packetType, adcValue and,
for DualModeSensor, button) together with the frame's recorded rssi. -/
theorem valid_frame_acked_and_notified (P : RadioProtocol) (hP : P.WellFormed)
    (adapter : Adapter) (htx : adapter.transmit = EasyLink_Status.Success) (s : State)
    (callback : CoordinatorRadio_PacketReceivedCallback)
    (hcb : s.packetReceivedCallback = some callback) (rxPacket : EasyLink_RxPacket)
    (hty : packetType rxPacket.payload = P.RADIO_PACKET_TYPE_ADC_SENSOR_PACKET ∨
      packetType rxPacket.payload = P.RADIO_PACKET_TYPE_DM_SENSOR_PACKET) :
    ∃ txPacket packet,
      acks (stateOf (coordinatorRFTaskIteration P adapter
          (rxDoneCallback P s rxPacket EasyLink_Status.Success))).trace
        = acks s.trace ++ [txPacket] ∧
      txPacket.dstAddr0 = sourceAddress rxPacket.payload ∧
      txPacket.len = P.sizeofAckPacket ∧
      (∀ i, i < P.sizeofAckPacket → txPacket.payload i = s.ackPacket i) ∧
      notifications (stateOf (coordinatorRFTaskIteration P adapter
          (rxDoneCallback P s rxPacket EasyLink_Status.Success))).trace
        = notifications s.trace ++ [(packet, toInt8 rxPacket.rssi)] ∧
      packet = (rxDoneCallback P s rxPacket EasyLink_Status.Success).latestRxPacket ∧
      sourceAddress packet = sourceAddress rxPacket.payload ∧
      packetType packet = packetType rxPacket.payload ∧
      adcValue packet = adcValue rxPacket.payload ∧
      (packetType rxPacket.payload = P.RADIO_PACKET_TYPE_DM_SENSOR_PACKET →
        button P packet = button P rxPacket.payload) ∧
      (stateOf (coordinatorRFTaskIteration P adapter
          (rxDoneCallback P s rxPacket EasyLink_Status.Success))).coordinator
        = callback packet (toInt8 rxPacket.rssi) s.coordinator := by
  obtain ⟨hne, _, _, _, hadc, hbut, hdm⟩ := hP
  obtain ⟨hb1, hb2⟩ := valid_bit_posted s.radioOperationEvent
  -- the state the completion callback leaves behind
  have hs1 : ∃ n, 4 ≤ n ∧
      (packetType rxPacket.payload = P.RADIO_PACKET_TYPE_DM_SENSOR_PACKET → P.offsetofButton < n) ∧
      (rxDoneCallback P s rxPacket EasyLink_Status.Success).latestRxPacket =
        memcpy s.latestRxPacket rxPacket.payload n ∧
      (rxDoneCallback P s rxPacket EasyLink_Status.Success).latestRssi = toInt8 rxPacket.rssi ∧
      (rxDoneCallback P s rxPacket EasyLink_Status.Success).radioOperationEvent =
        s.radioOperationEvent ||| RADIO_EVENT_VALID_PACKET_RECEIVED ∧
      (rxDoneCallback P s rxPacket EasyLink_Status.Success).packetReceivedCallback =
        s.packetReceivedCallback ∧
      (rxDoneCallback P s rxPacket EasyLink_Status.Success).trace = s.trace ∧
      (rxDoneCallback P s rxPacket EasyLink_Status.Success).txPacket = s.txPacket ∧
      (rxDoneCallback P s rxPacket EasyLink_Status.Success).ackPacket = s.ackPacket ∧
      (rxDoneCallback P s rxPacket EasyLink_Status.Success).coordinator = s.coordinator := by
    rcases hty with h | h
    · refine ⟨P.sizeofAdcSensorPacket, hadc, fun h2 => absurd (h.symm.trans h2) hne, ?_⟩
      simp [rxDoneCallback, h]
    · refine ⟨P.sizeofDualModeSensorPacket, by omega, fun _ => hdm, ?_⟩
      simp only [rxDoneCallback, h, hne.symm, if_true, if_false]
      split_ifs <;> simp
  obtain ⟨n, hn, hnb, e1, e2, e3, e4, e5, e6, e7, e8⟩ := hs1
  obtain ⟨k1, k2, k3⟩ := iteration_valid_trace P adapter
    (rxDoneCallback P s rxPacket EasyLink_Status.Success) callback (e4.trans hcb) htx
    (by rw [e3]; exact hb1) (by rw [e3]; exact hb2)
  rw [e5, e6, e7] at k1
  rw [e5, e2] at k2
  rw [e2, e8] at k3
  refine ⟨_, _, k1, ?_, rfl, fun i hi => memcpy_lt _ _ _ _ hi, k2, rfl, ?_, ?_, ?_, ?_, k3⟩
  · rw [e1]; exact memcpy_lt _ _ _ _ (by omega)
  · rw [e1]; exact memcpy_lt _ _ _ _ (by omega)
  · rw [e1]; exact memcpy_lt _ _ _ _ (by omega)
  · rw [e1]; simp only [adcValue]
    rw [memcpy_lt _ _ _ _ (by omega : 2 < n), memcpy_lt _ _ _ _ (by omega : 3 < n)]
  · intro h; rw [e1]; exact memcpy_lt _ _ _ _ (hnb h)

/-- Claim C4, the amended statement at an AdcSensor frame from address 0x05 after
start-up. -/
theorem valid_frame_acked_and_notified_witness :
    RadioProtocol.spec.WellFormed ∧
      ∃ txPacket packet,
        acks (stateOf (coordinatorRFTaskIteration RadioProtocol.spec Adapter.success
            (rxDoneCallback RadioProtocol.spec (stateOf (started RadioProtocol.spec Adapter.success))
              (adcSensorFrame RadioProtocol.spec 5 300 (-60)) EasyLink_Status.Success))).trace
          = acks (stateOf (started RadioProtocol.spec Adapter.success)).trace ++ [txPacket] ∧
        txPacket.dstAddr0 = 5 ∧
        notifications (stateOf (coordinatorRFTaskIteration RadioProtocol.spec Adapter.success
            (rxDoneCallback RadioProtocol.spec (stateOf (started RadioProtocol.spec Adapter.success))
              (adcSensorFrame RadioProtocol.spec 5 300 (-60)) EasyLink_Status.Success))).trace
          = notifications (stateOf (started RadioProtocol.spec Adapter.success)).trace
            ++ [(packet, -60)] ∧
        adcValue packet = 300 := by
  obtain ⟨txPacket, packet, h1, h2, _, _, h5, _, _, _, h9, _, _⟩ :=
    valid_frame_acked_and_notified RadioProtocol.spec (by decide) Adapter.success rfl
      (stateOf (started RadioProtocol.spec Adapter.success))
      (registryCallback RadioProtocol.spec) rfl
      (adcSensorFrame RadioProtocol.spec 5 300 (-60)) (Or.inl rfl)
  exact ⟨by decide, txPacket, packet, h1, h2, h5, h9⟩

/-- Claim C5. For every frame whose reception status is not success, and for every
successfully received frame whose packetType is neither AdcSensor nor DualModeSensor,
`rxDoneCallback` followed by the main-loop iteration it wakes (no event was pending
before) makes exactly one call, to `EasyLink_receiveAsync`: it transmits no Ack, does not
invoke the notification callback, leaves the state of the registry task unchanged, and
calls `EasyLink_receiveAsync` exactly once. -/
theorem rejected_frame_rearms_once (P : RadioProtocol) (adapter : Adapter) (s : State)
    (hev : s.radioOperationEvent = 0) (rxPacket : EasyLink_RxPacket) (status : EasyLink_Status)
    (h : status = EasyLink_Status.Success →
      packetType rxPacket.payload ≠ P.RADIO_PACKET_TYPE_ADC_SENSOR_PACKET ∧
      packetType rxPacket.payload ≠ P.RADIO_PACKET_TYPE_DM_SENSOR_PACKET) :
    (stateOf (coordinatorRFTaskIteration P adapter (rxDoneCallback P s rxPacket status))).trace =
        s.trace ++ [Effect.receiveAsync] ∧
      acks (stateOf (coordinatorRFTaskIteration P adapter
        (rxDoneCallback P s rxPacket status))).trace = acks s.trace ∧
      notifications (stateOf (coordinatorRFTaskIteration P adapter
        (rxDoneCallback P s rxPacket status))).trace = notifications s.trace ∧
      receiveAsyncCalls (stateOf (coordinatorRFTaskIteration P adapter
        (rxDoneCallback P s rxPacket status))).trace = receiveAsyncCalls s.trace + 1 ∧
      (stateOf (coordinatorRFTaskIteration P adapter
        (rxDoneCallback P s rxPacket status))).coordinator = s.coordinator := by
  have htrace : (stateOf (coordinatorRFTaskIteration P adapter
      (rxDoneCallback P s rxPacket status))).trace = s.trace ++ [Effect.receiveAsync] ∧
      (stateOf (coordinatorRFTaskIteration P adapter
        (rxDoneCallback P s rxPacket status))).coordinator = s.coordinator := by
    have hev2 : (rxDoneCallback P s rxPacket status).radioOperationEvent = 2 := by
      rw [(rxDoneCallback_rejected P s rxPacket status h).1, hev]; rfl
    have htr : (rxDoneCallback P s rxPacket status).trace = s.trace := by
      by_cases hs : status = EasyLink_Status.Success
      · obtain ⟨h1, h2⟩ := h hs
        simp [rxDoneCallback, hs, h1, h2]
      · simp [rxDoneCallback, hs]
    have hco : (rxDoneCallback P s rxPacket status).coordinator = s.coordinator := by
      by_cases hs : status = EasyLink_Status.Success
      · obtain ⟨h1, h2⟩ := h hs
        simp [rxDoneCallback, hs, h1, h2]
      · simp [rxDoneCallback, hs]
    generalize rxDoneCallback P s rxPacket status = s1 at hev2 htr hco
    have hv : (2 : Nat) &&& RADIO_EVENT_VALID_PACKET_RECEIVED = 0 := by decide
    have hi : (2 : Nat) &&& RADIO_EVENT_INVALID_PACKET_RECEIVED = 2 := by decide
    simp only [coordinatorRFTaskIteration, hev2, hv, hi, receiveAsyncOrAbort]
    by_cases ha : adapter.receiveAsyncInvalid = EasyLink_Status.Success
    · simp [ha, stateOf, htr, hco]
    · simp [ha, stateOf, htr, hco]
  obtain ⟨h1, h2⟩ := htrace
  refine ⟨h1, ?_, ?_, ?_, h2⟩
  · rw [h1, acks_append]; simp [acks]
  · rw [h1, notifications_append]; simp [notifications]
  · rw [h1, receiveAsyncCalls_append]; simp [receiveAsyncCalls]

/-- Claim C5 at a frame of the Ack type received after start-up. -/
theorem rejected_frame_rearms_once_witness :
    (stateOf (started RadioProtocol.spec Adapter.success)).radioOperationEvent = 0 ∧
      (stateOf (coordinatorRFTaskIteration RadioProtocol.spec Adapter.success
        (rxDoneCallback RadioProtocol.spec (stateOf (started RadioProtocol.spec Adapter.success))
          (ackFrame RadioProtocol.spec) EasyLink_Status.Success))).trace =
        (stateOf (started RadioProtocol.spec Adapter.success)).trace ++ [Effect.receiveAsync] :=
  ⟨rfl,
    (rejected_frame_rearms_once RadioProtocol.spec Adapter.success
      (stateOf (started RadioProtocol.spec Adapter.success)) rfl (ackFrame RadioProtocol.spec)
      EasyLink_Status.Success (fun _ => ⟨by decide, by decide⟩)).1⟩

/-- Claim C6, counterexample: the end-to-end run for sourceAddress 0x05, adcValue 300 and
rssi -60 on an adapter that reports the Ack transmission as failed is aborted in the
radio main-loop iteration: one Ack for 0x05 was handed to the adapter, the callback was
not invoked, and the registry has no slot for address 5. -/
theorem end_to_end_transmit_failure :
    aborted (endToEnd RadioProtocol.spec Adapter.transmitFails 5 300 (-60)) = true ∧
      (acks (stateOf (endToEnd RadioProtocol.spec Adapter.transmitFails 5 300 (-60))).trace).map
        (·.dstAddr0) = [5] ∧
      (notifications
        (stateOf (endToEnd RadioProtocol.spec Adapter.transmitFails 5 300 (-60))).trace).length
          = 0 ∧
      CoordinatorTask.isKnownNodeAddress
        (stateOf (endToEnd RadioProtocol.spec Adapter.transmitFails 5 300 (-60))).coordinator 5
          = 0 ∧
      CoordinatorTask.findSlot
        (stateOf (endToEnd RadioProtocol.spec Adapter.transmitFails 5 300 (-60))).coordinator 5
          = none := by
  decide

/-- Claim C6, amended: end-to-end, from the initial state with the registry callback
registered, on an adapter that reports success for its initialisation, for the Ack
transmission and for arming the receive: for every source address `a`, adcValue `v` and
rssi `r` of the `int8_t` range, injecting a successfully received AdcSensor frame with
sourceAddress `a` and adcValue `v` and rssi `r` through `rxDoneCallback`, one radio
main-loop iteration, `packetReceivedCallback` and one registry main-loop iteration ends
without abort, with exactly one transmitted Ack, addressed to `a`, and with the registry
slot found for address `a` holding latestAdcValue `v`, button 0 and latestRssi `r`. -/
theorem end_to_end_adc_frame (P : RadioProtocol) (hP : P.WellFormed) (adapter : Adapter)
    (h1 : adapter.init = EasyLink_Status.Success)
    (h2 : adapter.transmit = EasyLink_Status.Success)
    (h3 : adapter.receiveAsyncStart = EasyLink_Status.Success)
    (h4 : adapter.receiveAsyncValid = EasyLink_Status.Success)
    (a v : Nat) (r : Int) (hr1 : -128 ≤ r) (hr2 : r ≤ 127) :
    ∃ s, endToEnd P adapter a v r = Except.ok s ∧
      (∃ txPacket, acks s.trace = [txPacket] ∧ txPacket.dstAddr0 = a ∧
        txPacket.len = P.sizeofAckPacket ∧
        sourceAddress txPacket.payload = P.RADIO_COORDINATOR_ADDRESS ∧
        packetType txPacket.payload = P.RADIO_PACKET_TYPE_ACK_PACKET) ∧
      (notifications s.trace).length = 1 ∧
      CoordinatorTask.isKnownNodeAddress s.coordinator a = 1 ∧
      ∃ j, CoordinatorTask.findSlot s.coordinator a = some j ∧
        s.coordinator.knownSensorNodes j =
          { address := a, latestAdcValue := v, button := 0, latestRssi := r } := by
  obtain ⟨s, hs, hco, htr⟩ := endToEnd_ok P hP adapter h1 h2 h3 h4 a v r hr1 hr2
  obtain ⟨_, _, _, hack, _, _, _⟩ := hP
  have hstore := CoordinatorTask.registryStep_stores
    { CoordinatorTask.State.init with
      latestActiveAdcSensorNode := { address := a, latestAdcValue := v, button := 0, latestRssi := r }
      coordinatorEvent := 0 } (Or.inr (show (0 : Nat) < 7 by decide))
  obtain ⟨j, hj1, hj2⟩ := hstore
  rw [← CoordinatorTask.processNotification_eq, ← hco] at hj1 hj2
  refine ⟨s, hs, ⟨_, by rw [htr]; rfl, rfl, rfl, ?_, ?_⟩, by rw [htr]; rfl, ?_, j, hj1, hj2⟩
  · simp [sourceAddress, memcpy, setByte, (by omega : 0 < P.sizeofAckPacket)]
  · simp [packetType, memcpy, setByte, (by omega : 1 < P.sizeofAckPacket)]
  · rw [CoordinatorTask.isKnownNodeAddress_eq_findSlot]
    have hj3 : CoordinatorTask.findSlot s.coordinator a = some j := hj1
    rw [hj3]; rfl

/-- Claim C6, the amended statement at sourceAddress 0x05, adcValue 300 and rssi -60. -/
theorem end_to_end_adc_frame_witness :
    RadioProtocol.spec.WellFormed ∧
      ∃ s, endToEnd RadioProtocol.spec Adapter.success 5 300 (-60) = Except.ok s ∧
        (acks s.trace).map (·.dstAddr0) = [5] ∧
        ∃ j, CoordinatorTask.findSlot s.coordinator 5 = some j ∧
          s.coordinator.knownSensorNodes j =
            { address := 5, latestAdcValue := 300, button := 0, latestRssi := -60 } := by
  obtain ⟨s, hs, ⟨txPacket, ht1, ht2, _⟩, _, _, hj⟩ :=
    end_to_end_adc_frame RadioProtocol.spec (by decide) Adapter.success rfl rfl rfl rfl 5 300 (-60)
      (by decide) (by decide)
  exact ⟨by decide, s, hs, by rw [ht1]; simp [ht2], hj⟩

end CoordinatorRFTask

namespace CoordinatorTask
open RadioProtocol

/-- Claim C7. Lookup correctness: for every registry state and every address `a`,
`isKnownNodeAddress a` returns found (1) if and only if at least one of the 7 slots,
populated or not, has its address field equal to `a`, and returns not found (0) if and
only if no slot has; it returns nothing else. -/
theorem isKnownNodeAddress_correct (s : State) (a : Nat) :
    (isKnownNodeAddress s a = 1 ↔
        ∃ i, i < COORDINATOR_MAX_NODES ∧ (s.knownSensorNodes i).address = a) ∧
      (isKnownNodeAddress s a = 0 ↔
        ∀ i, i < COORDINATOR_MAX_NODES → (s.knownSensorNodes i).address ≠ a) ∧
      (isKnownNodeAddress s a = 0 ∨ isKnownNodeAddress s a = 1) := by
  refine ⟨(isKnownNodeAddress_iff s a).1, (isKnownNodeAddress_iff s a).2, ?_⟩
  rw [isKnownNodeAddress_eq_findSlot]
  cases findSlot s a <;> simp

/-- Claim C8. Packet-to-node extraction: for every state, packet and rssi,
`packetReceivedCallback` on an AdcSensor packet sets the transient latest node to the
packet's sourceAddress and adcValue, button 0 and the rssi, and raises NewValue, changing
nothing else; on a DualModeSensor packet it does the same with the packet's button; on
any other packetType it leaves the whole state unchanged and raises no signal, so that
the main loop, with no event pending, does nothing. -/
theorem packetReceivedCallback_extracts (P : RadioProtocol)
    (hP : P.RADIO_PACKET_TYPE_ADC_SENSOR_PACKET ≠ P.RADIO_PACKET_TYPE_DM_SENSOR_PACKET)
    (s : State) (packet : Bytes) (rssi : Int) :
    (packetType packet = P.RADIO_PACKET_TYPE_ADC_SENSOR_PACKET →
      packetReceivedCallback P s packet rssi =
        { s with
          latestActiveAdcSensorNode :=
            { address := sourceAddress packet, latestAdcValue := adcValue packet, button := 0,
              latestRssi := rssi }
          coordinatorEvent := s.coordinatorEvent ||| COORDINATOR_EVENT_NEW_ADC_SENSOR_VALUE }) ∧
    (packetType packet = P.RADIO_PACKET_TYPE_DM_SENSOR_PACKET →
      packetReceivedCallback P s packet rssi =
        { s with
          latestActiveAdcSensorNode :=
            { address := sourceAddress packet, latestAdcValue := adcValue packet,
              button := button P packet, latestRssi := rssi }
          coordinatorEvent := s.coordinatorEvent ||| COORDINATOR_EVENT_NEW_ADC_SENSOR_VALUE }) ∧
    (packetType packet ≠ P.RADIO_PACKET_TYPE_ADC_SENSOR_PACKET →
      packetType packet ≠ P.RADIO_PACKET_TYPE_DM_SENSOR_PACKET →
      packetReceivedCallback P s packet rssi = s ∧
        (s.coordinatorEvent = 0 →
          coordinatorTaskIteration (packetReceivedCallback P s packet rssi) = s)) := by
  refine ⟨fun h => ?_, fun h => ?_, fun h1 h2 => ?_⟩
  · simp [packetReceivedCallback, h, postNewValue]
  · simp [packetReceivedCallback, h, hP.symm, postNewValue]
  · have e : packetReceivedCallback P s packet rssi = s := by
      simp [packetReceivedCallback, h1, h2]
    refine ⟨e, fun h0 => ?_⟩
    rw [e]
    simp [coordinatorTaskIteration, h0]

/-- Claim C8 at a DualModeSensor packet from address 0x05 with adcValue 300 and button 1. -/
theorem packetReceivedCallback_extracts_witness :
    RadioProtocol.spec.RADIO_PACKET_TYPE_ADC_SENSOR_PACKET ≠
        RadioProtocol.spec.RADIO_PACKET_TYPE_DM_SENSOR_PACKET ∧
      packetReceivedCallback RadioProtocol.spec State.init (bytesOf [5, 1, 44, 1, 1]) (-60) =
        { State.init with
          latestActiveAdcSensorNode :=
            { address := sourceAddress (bytesOf [5, 1, 44, 1, 1])
              latestAdcValue := adcValue (bytesOf [5, 1, 44, 1, 1])
              button := button RadioProtocol.spec (bytesOf [5, 1, 44, 1, 1])
              latestRssi := -60 }
          coordinatorEvent :=
            State.init.coordinatorEvent ||| COORDINATOR_EVENT_NEW_ADC_SENSOR_VALUE } ∧
      adcValue (bytesOf [5, 1, 44, 1, 1]) = 300 :=
  ⟨by decide,
    (packetReceivedCallback_extracts RadioProtocol.spec (by decide) State.init
      (bytesOf [5, 1, 44, 1, 1]) (-60)).2.1 rfl,
    by decide⟩

end CoordinatorTask

namespace CoordinatorRFTask
open RadioProtocol

/-- Claim C9. Rejected frames do not touch the packet buffer: for every prior state, when
`rxDoneCallback` is called with a non-success status, or with success and a packetType
other than AdcSensor and DualModeSensor, the pending signals afterwards are the ones
pending before plus InvalidPacketReceived, the ValidPacketReceived bit is as it was, and
the latest-received-packet buffer is unchanged. -/
theorem rejected_frame_keeps_buffer (P : RadioProtocol) (s : State) (rxPacket : EasyLink_RxPacket)
    (status : EasyLink_Status)
    (h : status = EasyLink_Status.Success →
      packetType rxPacket.payload ≠ P.RADIO_PACKET_TYPE_ADC_SENSOR_PACKET ∧
      packetType rxPacket.payload ≠ P.RADIO_PACKET_TYPE_DM_SENSOR_PACKET) :
    (rxDoneCallback P s rxPacket status).radioOperationEvent =
        s.radioOperationEvent ||| RADIO_EVENT_INVALID_PACKET_RECEIVED ∧
      (rxDoneCallback P s rxPacket status).radioOperationEvent &&& RADIO_EVENT_VALID_PACKET_RECEIVED =
        s.radioOperationEvent &&& RADIO_EVENT_VALID_PACKET_RECEIVED ∧
      (rxDoneCallback P s rxPacket status).latestRxPacket = s.latestRxPacket :=
  rxDoneCallback_rejected P s rxPacket status h

/-- Claim C9 at a frame of the Ack type and at a failed reception, in the initial state. -/
theorem rejected_frame_keeps_buffer_witness :
    (rxDoneCallback RadioProtocol.spec State.init (ackFrame RadioProtocol.spec)
        EasyLink_Status.Success).latestRxPacket = State.init.latestRxPacket ∧
      (rxDoneCallback RadioProtocol.spec State.init (adcSensorFrame RadioProtocol.spec 5 300 (-60))
        (EasyLink_Status.Error 6)).latestRxPacket = State.init.latestRxPacket :=
  ⟨(rejected_frame_keeps_buffer RadioProtocol.spec State.init (ackFrame RadioProtocol.spec)
      EasyLink_Status.Success (fun _ => ⟨by decide, by decide⟩)).2.2,
    (rejected_frame_keeps_buffer RadioProtocol.spec State.init
      (adcSensorFrame RadioProtocol.spec 5 300 (-60)) (EasyLink_Status.Error 6)
      (fun h => by cases h)).2.2⟩

end CoordinatorRFTask

namespace CoordinatorTask

/-- Claim C10. Ring insertion: in every registry state whose cursor is a slot index `c`
in 0..6 and for every node `n`, `addNewNode n` writes `n` into slot `c`, leaves every
other slot unchanged, and sets the cursor to `c + 1` if `c < 6` and to 0 if `c = 6`, which
is again a slot index; and in every state `t` reachable from the initial one the cursor
is a slot index in 0..6 and no node was ever stored outside the 7 slots of the array, so
the registry never holds more than 7 entries. -/
theorem addNewNode_ring (s : State) (n : AdcSensorNode)
    (hc : s.lastAddedSensorNode < COORDINATOR_MAX_NODES) (t : State) (ht : Reachable t) :
    ((addNewNode s n).knownSensorNodes s.lastAddedSensorNode = n ∧
      (∀ i, i ≠ s.lastAddedSensorNode →
        (addNewNode s n).knownSensorNodes i = s.knownSensorNodes i) ∧
      (s.lastAddedSensorNode < 6 →
        (addNewNode s n).lastAddedSensorNode = s.lastAddedSensorNode + 1) ∧
      (s.lastAddedSensorNode = 6 → (addNewNode s n).lastAddedSensorNode = 0) ∧
      (addNewNode s n).lastAddedSensorNode < COORDINATOR_MAX_NODES ∧
      (addNewNode s n).latestActiveAdcSensorNode = s.latestActiveAdcSensorNode) ∧
    (t.lastAddedSensorNode < COORDINATOR_MAX_NODES ∧
      ∀ i, COORDINATOR_MAX_NODES ≤ i → t.knownSensorNodes i = AdcSensorNode.zero) := by
  have h7 : COORDINATOR_MAX_NODES = 7 := rfl
  obtain ⟨h1, h2, h3⟩ := addNewNode_frame s n
  rw [h7] at h3 hc
  refine ⟨⟨h1, h2, fun h => ?_, fun h => ?_, ?_, rfl⟩, reachable_inv t ht⟩
  · rw [h3, if_pos (by omega)]
  · rw [h3, if_neg (by omega)]
  · rw [h3, h7]; split_ifs <;> omega

theorem addNewNode_ring_witness :
    State.init.lastAddedSensorNode < COORDINATOR_MAX_NODES ∧
      Reachable (processNotification State.init (nodeOf 5 300)) ∧
      (addNewNode State.init (nodeOf 5 300)).knownSensorNodes 0 = nodeOf 5 300 ∧
      (processNotification State.init (nodeOf 5 300)).lastAddedSensorNode < COORDINATOR_MAX_NODES :=
  have hc : State.init.lastAddedSensorNode < COORDINATOR_MAX_NODES := by decide
  have ht : Reachable (processNotification State.init (nodeOf 5 300)) :=
    Reachable.iteration _ (Reachable.post _ _ Reachable.init)
  ⟨hc, ht, (addNewNode_ring State.init (nodeOf 5 300) hc _ ht).1.1,
    (addNewNode_ring State.init (nodeOf 5 300) hc _ ht).2.1⟩

end CoordinatorTask

namespace CoordinatorTask

/-- Claim C11. In-place update frame: for every registry state and every node `n`,
`updateNode n` leaves the ring insertion cursor, the transient latest node and the pending
signals unchanged and leaves the address field of every slot unchanged; if a lookup of
`n.address` finds slot `j` (the lowest-index slot with that address), slot `j` keeps its
address and gets the latestAdcValue, button and latestRssi of `n`, and every other slot is
unchanged; if no slot matches (the lookup returns not found), the state is unchanged. -/
theorem updateNode_frame (s : State) (n : AdcSensorNode) :
    (updateNode s n).lastAddedSensorNode = s.lastAddedSensorNode ∧
      (updateNode s n).latestActiveAdcSensorNode = s.latestActiveAdcSensorNode ∧
      (updateNode s n).coordinatorEvent = s.coordinatorEvent ∧
      (∀ i, ((updateNode s n).knownSensorNodes i).address = (s.knownSensorNodes i).address) ∧
      (∀ j, findSlot s n.address = some j →
        (updateNode s n).knownSensorNodes j =
          { address := (s.knownSensorNodes j).address
            latestAdcValue := n.latestAdcValue
            button := n.button
            latestRssi := n.latestRssi } ∧
        ∀ i, i ≠ j → (updateNode s n).knownSensorNodes i = s.knownSensorNodes i) ∧
      (findSlot s n.address = none → updateNode s n = s) ∧
      (isKnownNodeAddress s n.address = 0 → updateNode s n = s) := by
  have hks : (updateNode s n).knownSensorNodes =
      match findSlot s n.address with
      | some j =>
        setSlot s.knownSensorNodes j
          { s.knownSensorNodes j with
            latestAdcValue := n.latestAdcValue
            latestRssi := n.latestRssi
            button := n.button }
      | none => s.knownSensorNodes :=
    updateNode_loop_eq_findSlot n s.knownSensorNodes COORDINATOR_MAX_NODES 0
  have hnone : findSlot s n.address = none → updateNode s n = s := by
    intro h
    rw [h] at hks
    show ({ s with knownSensorNodes := (updateNode s n).knownSensorNodes } : State) = s
    rw [hks]
  refine ⟨rfl, rfl, rfl, fun i => ?_, fun j hj => ?_, hnone, fun h0 => hnone ?_⟩
  · rw [hks]
    cases hf : findSlot s n.address with
    | none => rfl
    | some j =>
      by_cases hij : i = j
      · subst hij; simp [setSlot]
      · simp [setSlot, hij]
  · rw [hks, hj]
    refine ⟨by simp [setSlot], fun i hi => by simp [setSlot, hi]⟩
  · rw [isKnownNodeAddress_eq_findSlot] at h0
    cases hf : findSlot s n.address with
    | none => rfl
    | some j => rw [hf] at h0; simp at h0

end CoordinatorTask

namespace CoordinatorRFTask
open RadioProtocol

/-- Claim C12. Re-arm ordering: when a callback is registered and no signal was pending, a
successful completion with a sensor packet type makes no call itself, and the main-loop
iteration it wakes makes its calls in the order transmit Ack, notification callback,
`EasyLink_receiveAsync`, toggle of the activity LED. These four are all its calls when the
adapter reports success; when the adapter reports the transmission as failed the run is
aborted after the transmit call, and when it reports the re-arm as failed the run is
aborted after the `EasyLink_receiveAsync` call. So whenever `EasyLink_receiveAsync` is
called it is the third call, after the Ack transmission and the notification, and none
lies between the completion and the notification. -/
theorem rearm_after_ack_and_notify (P : RadioProtocol) (adapter : Adapter) (s : State)
    (hev : s.radioOperationEvent = 0)
    (callback : CoordinatorRadio_PacketReceivedCallback)
    (hcb : s.packetReceivedCallback = some callback) (rxPacket : EasyLink_RxPacket)
    (hty : packetType rxPacket.payload = P.RADIO_PACKET_TYPE_ADC_SENSOR_PACKET ∨
      packetType rxPacket.payload = P.RADIO_PACKET_TYPE_DM_SENSOR_PACKET) :
    (rxDoneCallback P s rxPacket EasyLink_Status.Success).trace = s.trace ∧
    (adapter.transmit ≠ EasyLink_Status.Success →
      aborted (coordinatorRFTaskIteration P adapter
        (rxDoneCallback P s rxPacket EasyLink_Status.Success)) = true ∧
      (stateOf (coordinatorRFTaskIteration P adapter
        (rxDoneCallback P s rxPacket EasyLink_Status.Success))).trace = s.trace ++
        [Effect.transmit (EasyLink_TxPacket.mk
          (sourceAddress (rxDoneCallback P s rxPacket EasyLink_Status.Success).latestRxPacket)
          P.sizeofAckPacket (memcpy s.txPacket.payload s.ackPacket P.sizeofAckPacket))]) ∧
    (adapter.transmit = EasyLink_Status.Success →
      adapter.receiveAsyncValid ≠ EasyLink_Status.Success →
      aborted (coordinatorRFTaskIteration P adapter
        (rxDoneCallback P s rxPacket EasyLink_Status.Success)) = true ∧
      (stateOf (coordinatorRFTaskIteration P adapter
        (rxDoneCallback P s rxPacket EasyLink_Status.Success))).trace = s.trace ++
        [Effect.transmit (EasyLink_TxPacket.mk
          (sourceAddress (rxDoneCallback P s rxPacket EasyLink_Status.Success).latestRxPacket)
          P.sizeofAckPacket (memcpy s.txPacket.payload s.ackPacket P.sizeofAckPacket)),
         Effect.packetReceived (rxDoneCallback P s rxPacket EasyLink_Status.Success).latestRxPacket
          (toInt8 rxPacket.rssi),
         Effect.receiveAsync]) ∧
    (adapter.transmit = EasyLink_Status.Success →
      adapter.receiveAsyncValid = EasyLink_Status.Success →
      aborted (coordinatorRFTaskIteration P adapter
        (rxDoneCallback P s rxPacket EasyLink_Status.Success)) = false ∧
      (stateOf (coordinatorRFTaskIteration P adapter
        (rxDoneCallback P s rxPacket EasyLink_Status.Success))).trace = s.trace ++
        [Effect.transmit (EasyLink_TxPacket.mk
          (sourceAddress (rxDoneCallback P s rxPacket EasyLink_Status.Success).latestRxPacket)
          P.sizeofAckPacket (memcpy s.txPacket.payload s.ackPacket P.sizeofAckPacket)),
         Effect.packetReceived (rxDoneCallback P s rxPacket EasyLink_Status.Success).latestRxPacket
          (toInt8 rxPacket.rssi),
         Effect.receiveAsync,
         Effect.setOutputValue (if s.activityLed = 0 then 1 else 0)]) := by
  obtain ⟨e1, e2, e3, e4, e5, e6, e7, _⟩ := rxDoneCallback_accepted P s rxPacket hty
  have hev1 : (rxDoneCallback P s rxPacket EasyLink_Status.Success).radioOperationEvent =
      RADIO_EVENT_VALID_PACKET_RECEIVED := by
    rw [e1, hev]; rfl
  have key := validPacketReceived_effects P adapter
    { rxDoneCallback P s rxPacket EasyLink_Status.Success with radioOperationEvent := 0 }
    callback (e3.trans hcb)
  rw [← iteration_only_valid P adapter _ hev1] at key
  simp only [e2, e4, e5, e6, e7] at key
  exact ⟨e4, key⟩

/-- Claim C12 at an AdcSensor frame from address 0x05 after start-up, on an adapter that
reports success. -/
theorem rearm_after_ack_and_notify_witness :
    (stateOf (coordinatorRFTaskIteration RadioProtocol.spec Adapter.success
        (rxDoneCallback RadioProtocol.spec (stateOf (started RadioProtocol.spec Adapter.success))
          (adcSensorFrame RadioProtocol.spec 5 300 (-60)) EasyLink_Status.Success))).trace =
      (stateOf (started RadioProtocol.spec Adapter.success)).trace ++
        [Effect.transmit (EasyLink_TxPacket.mk
          (sourceAddress (rxDoneCallback RadioProtocol.spec
            (stateOf (started RadioProtocol.spec Adapter.success))
            (adcSensorFrame RadioProtocol.spec 5 300 (-60))
            EasyLink_Status.Success).latestRxPacket)
          RadioProtocol.spec.sizeofAckPacket
          (memcpy (stateOf (started RadioProtocol.spec Adapter.success)).txPacket.payload
            (stateOf (started RadioProtocol.spec Adapter.success)).ackPacket
            RadioProtocol.spec.sizeofAckPacket)),
         Effect.packetReceived (rxDoneCallback RadioProtocol.spec
            (stateOf (started RadioProtocol.spec Adapter.success))
            (adcSensorFrame RadioProtocol.spec 5 300 (-60))
            EasyLink_Status.Success).latestRxPacket
          (toInt8 (adcSensorFrame RadioProtocol.spec 5 300 (-60)).rssi),
         Effect.receiveAsync,
         Effect.setOutputValue
          (if (stateOf (started RadioProtocol.spec Adapter.success)).activityLed = 0 then 1
            else 0)] :=
  ((rearm_after_ack_and_notify RadioProtocol.spec Adapter.success
    (stateOf (started RadioProtocol.spec Adapter.success)) rfl
    (registryCallback RadioProtocol.spec) rfl
    (adcSensorFrame RadioProtocol.spec 5 300 (-60)) (Or.inl rfl)).2.2.2 rfl rfl).2

/-- Claim C13. Ancillary byte forwarding: for every successfully received DualModeSensor
frame, `rxDoneCallback` sets the temperature sink `*test.t` to payload byte 13 if that
byte is non-zero and otherwise leaves it unchanged, and sets the humidity sink `*test.h`
to payload byte 14 if that byte is non-zero and otherwise leaves it unchanged; for every
completion that is not a successfully received DualModeSensor frame (AdcSensor frames,
unrecognised types, failed receptions) both sinks are unchanged. -/
theorem ancillary_bytes_forwarded (P : RadioProtocol)
    (hP : P.RADIO_PACKET_TYPE_ADC_SENSOR_PACKET ≠ P.RADIO_PACKET_TYPE_DM_SENSOR_PACKET)
    (s : State) (rxPacket : EasyLink_RxPacket) (status : EasyLink_Status) :
    (status = EasyLink_Status.Success →
      packetType rxPacket.payload = P.RADIO_PACKET_TYPE_DM_SENSOR_PACKET →
      (rxDoneCallback P s rxPacket status).test_t =
        (if rxPacket.payload 13 ≠ 0 then rxPacket.payload 13 else s.test_t) ∧
      (rxDoneCallback P s rxPacket status).test_h =
        (if rxPacket.payload 14 ≠ 0 then rxPacket.payload 14 else s.test_h)) ∧
    (¬ (status = EasyLink_Status.Success ∧
        packetType rxPacket.payload = P.RADIO_PACKET_TYPE_DM_SENSOR_PACKET) →
      (rxDoneCallback P s rxPacket status).test_t = s.test_t ∧
      (rxDoneCallback P s rxPacket status).test_h = s.test_h) ∧
    (packetType rxPacket.payload = P.RADIO_PACKET_TYPE_ADC_SENSOR_PACKET →
      (rxDoneCallback P s rxPacket status).test_t = s.test_t ∧
      (rxDoneCallback P s rxPacket status).test_h = s.test_h) := by
  refine ⟨fun h1 h2 => ?_, fun h => ?_, fun h => ?_⟩
  · simp only [rxDoneCallback, h1, h2, hP.symm, if_true, if_false]
    split_ifs <;> simp
  · by_cases h1 : status = EasyLink_Status.Success
    · have h2 : packetType rxPacket.payload ≠ P.RADIO_PACKET_TYPE_DM_SENSOR_PACKET :=
        fun h3 => h ⟨h1, h3⟩
      by_cases h3 : packetType rxPacket.payload = P.RADIO_PACKET_TYPE_ADC_SENSOR_PACKET
      · simp [rxDoneCallback, h1, h3]
      · simp [rxDoneCallback, h1, h2, h3]
    · simp [rxDoneCallback, h1]
  · by_cases h1 : status = EasyLink_Status.Success
    · simp [rxDoneCallback, h1, h]
    · simp [rxDoneCallback, h1]

/-- Claim C13 at a DualModeSensor frame with the bytes 72 and 40 at offsets 13 and 14. -/
theorem ancillary_bytes_forwarded_witness :
    RadioProtocol.spec.RADIO_PACKET_TYPE_ADC_SENSOR_PACKET ≠
        RadioProtocol.spec.RADIO_PACKET_TYPE_DM_SENSOR_PACKET ∧
      dualModeFrame.payload 13 = 72 ∧ dualModeFrame.payload 14 = 40 ∧
      (rxDoneCallback RadioProtocol.spec State.init dualModeFrame
          EasyLink_Status.Success).test_t =
        (if dualModeFrame.payload 13 ≠ 0 then dualModeFrame.payload 13
          else State.init.test_t) ∧
      (rxDoneCallback RadioProtocol.spec State.init dualModeFrame
          EasyLink_Status.Success).test_h =
        (if dualModeFrame.payload 14 ≠ 0 then dualModeFrame.payload 14
          else State.init.test_h) :=
  ⟨by decide, by decide, by decide,
    (ancillary_bytes_forwarded RadioProtocol.spec (by decide) State.init dualModeFrame
      EasyLink_Status.Success).1 rfl rfl⟩

end CoordinatorRFTask

namespace CoordinatorTask

/-- Claim C14. Address uniqueness: in every registry state reachable from the initial
state by registry main-loop steps (update if `isKnownNodeAddress`, else `addNewNode`),
any two distinct slots that hold the same address hold address 0x00 and are both
never-inserted slots, that is zero-initialised slots that `addNewNode` has not written;
every never-inserted slot still holds the address 0x00 and, unless the cursor points to
it, is still entirely zero. In particular every non-zero address occurs in at most one
slot, so the slot found by a lookup of a non-zero address is the only slot holding it. -/
theorem address_unique (s : State) (inserted : List Nat) (hrun : RegistryRun s inserted) :
    (∀ i j, i < COORDINATOR_MAX_NODES → j < COORDINATOR_MAX_NODES → i ≠ j →
      (s.knownSensorNodes i).address = (s.knownSensorNodes j).address →
      (s.knownSensorNodes i).address = 0 ∧ i ∉ inserted ∧ j ∉ inserted) ∧
    (∀ i, i < COORDINATOR_MAX_NODES → i ∉ inserted →
      (s.knownSensorNodes i).address = 0 ∧
        (i ≠ s.lastAddedSensorNode → s.knownSensorNodes i = AdcSensorNode.zero)) ∧
    (∀ a, a ≠ 0 → ∀ i j, i < COORDINATOR_MAX_NODES → j < COORDINATOR_MAX_NODES →
      (s.knownSensorNodes i).address = a → (s.knownSensorNodes j).address = a → i = j) ∧
    (∀ a k, a ≠ 0 → findSlot s a = some k →
      ∀ i, i < COORDINATOR_MAX_NODES → (s.knownSensorNodes i).address = a → i = k) := by
  have inv := registryRun_inv s inserted hrun
  have key : ∀ i j, i < COORDINATOR_MAX_NODES → j < COORDINATOR_MAX_NODES → i ≠ j →
      (s.knownSensorNodes i).address = (s.knownSensorNodes j).address →
      (s.knownSensorNodes i).address = 0 ∧ i ∉ inserted ∧ j ∉ inserted := by
    intro i j hi hj hij he
    by_cases hii : i ∈ inserted
    · by_cases hji : j ∈ inserted
      · exact absurd he (inv.distinct i j hii hji hij)
      · have h0 := (inv.fresh j hj hji).1
        exact absurd (he.trans h0) (inv.nonzero ⟨j, hj, hji⟩ i hii)
    · have h0 := (inv.fresh i hi hii).1
      by_cases hji : j ∈ inserted
      · exact absurd (he.symm.trans h0) (inv.nonzero ⟨i, hi, hii⟩ j hji)
      · exact ⟨h0, hii, hji⟩
  have uniq : ∀ a, a ≠ 0 → ∀ i j, i < COORDINATOR_MAX_NODES → j < COORDINATOR_MAX_NODES →
      (s.knownSensorNodes i).address = a → (s.knownSensorNodes j).address = a → i = j := by
    intro a ha i j hi hj hia hja
    by_contra hij
    exact ha (hia.symm.trans (key i j hi hj hij (hia.trans hja.symm)).1)
  refine ⟨key, fun i hi hni => ?_, uniq, fun a k ha hk i hi hia => ?_⟩
  · obtain ⟨h0, hz⟩ := inv.fresh i hi hni
    refine ⟨h0, fun hic => hz ?_⟩
    have hcni : ¬ i < s.lastAddedSensorNode := fun h => hni ((inv.below ⟨i, hi, hni⟩ i).mpr h)
    omega
  · obtain ⟨_, hk7, hka, _⟩ := findSlot_loop_some _ _ _ _ _ hk
    exact uniq a ha i k hi (by omega) hia hka

/-- Claim C14 in the state after a notification for address 0x00 and one for address
0x05, where slot 0 is the only inserted slot. -/
theorem address_unique_witness :
    RegistryRun (processNotification (processNotification State.init (nodeOf 0 300))
        (nodeOf 5 123)) [0] ∧
      ∀ a, a ≠ 0 → ∀ i j, i < COORDINATOR_MAX_NODES → j < COORDINATOR_MAX_NODES →
        ((processNotification (processNotification State.init (nodeOf 0 300))
          (nodeOf 5 123)).knownSensorNodes i).address = a →
        ((processNotification (processNotification State.init (nodeOf 0 300))
          (nodeOf 5 123)).knownSensorNodes j).address = a → i = j :=
  have hrun : RegistryRun (processNotification (processNotification State.init (nodeOf 0 300))
      (nodeOf 5 123)) [0] :=
    RegistryRun.add _ _ (nodeOf 5 123)
      (RegistryRun.update _ _ (nodeOf 0 300) RegistryRun.init (by decide)) (by decide)
  ⟨hrun, (address_unique _ _ hrun).2.2.1⟩

/-- Claim C15. A reported value is lost without the registry being full: from the initial
state, a notification `n0` for address 0x00 with values that are not all zero is handled
as an update of slot 0 with no cursor advance; the notification `nb` for a new non-zero
address that follows is unknown and is inserted at the cursor, still slot 0, which moves
the cursor to slot 1. After it slot 0 holds `nb`, a lookup of 0x00 still returns found,
the slot it finds is slot 1, which holds latestAdcValue 0, button 0 and latestRssi 0, and
no slot of the registry holds the values of `n0`. -/
theorem zero_address_value_lost (n0 nb : AdcSensorNode) (h0 : n0.address = 0)
    (hv : n0 ≠ AdcSensorNode.zero) (hb : nb.address ≠ 0) :
    (isKnownNodeAddress State.init n0.address = 1 ∧
      (processNotification State.init n0).knownSensorNodes 0 = n0 ∧
      (processNotification State.init n0).lastAddedSensorNode = 0) ∧
    (isKnownNodeAddress (processNotification State.init n0) nb.address = 0 ∧
      (processNotifications State.init [n0, nb]).knownSensorNodes 0 = nb ∧
      (processNotifications State.init [n0, nb]).lastAddedSensorNode = 1) ∧
    (isKnownNodeAddress (processNotifications State.init [n0, nb]) 0 = 1 ∧
      findSlot (processNotifications State.init [n0, nb]) 0 = some 1 ∧
      (processNotifications State.init [n0, nb]).knownSensorNodes 1 = AdcSensorNode.zero ∧
      (∀ i, i < COORDINATOR_MAX_NODES →
        (processNotifications State.init [n0, nb]).knownSensorNodes i ≠ n0)) := by
  have hb2 : ¬ (0 = nb.address) := fun h => hb h.symm
  have e1 : processNotification State.init n0 =
      { State.init with
        latestActiveAdcSensorNode := n0
        knownSensorNodes := setSlot State.init.knownSensorNodes 0 n0 } := by
    have hk := registryStep_known
      { State.init with latestActiveAdcSensorNode := n0, coordinatorEvent := 0 } 0
      (by simp [findSlot, findSlot.loop, State.init, AdcSensorNode.zero, COORDINATOR_MAX_NODES, h0])
    rw [processNotification_eq, hk]
    rfl
  have e2 : processNotifications State.init [n0, nb] =
      { State.init with
        latestActiveAdcSensorNode := nb
        knownSensorNodes := setSlot (setSlot State.init.knownSensorNodes 0 n0) 0 nb
        lastAddedSensorNode := 1 } := by
    show processNotification (processNotification State.init n0) nb = _
    rw [e1, processNotification_eq, registryStep_unknown]
    · rfl
    · simp [findSlot, findSlot.loop, setSlot, State.init, AdcSensorNode.zero,
        COORDINATOR_MAX_NODES, hb2, h0]
  rw [e1, e2]
  refine ⟨⟨?_, by simp [setSlot], rfl⟩, ⟨?_, by simp [setSlot], rfl⟩, ?_, ?_,
    by simp [setSlot, State.init], ?_⟩
  · rw [h0]; decide
  · simp [isKnownNodeAddress, isKnownNodeAddress.loop, setSlot, State.init, AdcSensorNode.zero,
      COORDINATOR_MAX_NODES, hb2, h0]
  · simp [isKnownNodeAddress, isKnownNodeAddress.loop, setSlot, State.init, AdcSensorNode.zero,
      COORDINATOR_MAX_NODES, hb]
  · simp [findSlot, findSlot.loop, setSlot, State.init, AdcSensorNode.zero,
      COORDINATOR_MAX_NODES, hb]
  · intro i _
    by_cases hi : i = 0
    · subst hi
      simp only [setSlot, if_true]
      intro h
      exact hb (by rw [h, h0])
    · simp only [setSlot, hi, if_false, State.init]
      exact fun h => hv h.symm

/-- Claim C15 at a notification for address 0x00 with adcValue 300 followed by one for
address 0x05. -/
theorem zero_address_value_lost_witness :
    findSlot (processNotifications State.init [nodeOf 0 300, nodeOf 5 123]) 0 = some 1 ∧
      (processNotifications State.init [nodeOf 0 300, nodeOf 5 123]).knownSensorNodes 1 =
        AdcSensorNode.zero :=
  ⟨(zero_address_value_lost (nodeOf 0 300) (nodeOf 5 123) rfl (by decide) (by decide)).2.2.2.1,
    (zero_address_value_lost (nodeOf 0 300) (nodeOf 5 123) rfl (by decide) (by decide)).2.2.2.2.1⟩

end CoordinatorTask
